import Mathlib

/-!
Verification of the Airline-Record-Management service layer.

The Python sources are shallowly embedded: a Python JSON record is an
association list from field names to `PyVal`; repositories are the plain
in-memory list of records (storage and singletons carry no domain logic);
a service call is a pure function from the repository state and the
request payload to `Except Err` of the produced value together with the
new repository state.  Python mutation only ever happens through
`repo.insert` / `repo.update` / `repo.delete` after all validation, so an
`Except.error` result corresponds exactly to "the stored collection is
unchanged".

Simplifications, noted where they occur: strings are compared with
ASCII case folding (Python folds full Unicode); the structured `details`
payload of domain errors is dropped (only the kind and message are kept);
Python `int(...)` underscore separators in numeric literals are not
modelled.  A Python exception that is NOT one of the domain error classes
(e.g. `ValueError` escaping from a parser, or a crash inside `int(...)`)
is modelled by the distinguished `Err.untypedError` constructor.
-/

/-- A Python value as it appears in the JSON-backed records of this
repository: integers, strings, booleans and `None`. -/
inductive PyVal where
  | int (n : Int)
  | str (s : String)
  | bool (b : Bool)
  | none
deriving DecidableEq, Repr

/-- A Python dict with string keys, embedded as an association list in
insertion order (Python dicts preserve insertion order and have unique
keys). -/
abbrev Rec := List (String × PyVal)

/-- Embeds `d.get(k)`: first value stored under `k`, if any. -/
def recGet? (r : Rec) (k : String) : Option PyVal :=
  match r with
  | [] => Option.none
  | (k', v) :: rest => if k' = k then some v else recGet? rest k

/-- Embeds `d.get(k, default)`. -/
def recGetD (r : Rec) (k : String) (d : PyVal) : PyVal :=
  (recGet? r k).getD d

/-- Embeds `d[k] = v`: replace the value in place if the key exists (keeping its
position, as Python dicts do), otherwise append the new key. -/
def dictSet (r : Rec) (k : String) (v : PyVal) : Rec :=
  match r with
  | [] => [(k, v)]
  | (k', v') :: rest => if k' = k then (k, v) :: rest else (k', v') :: dictSet rest k v

/-- Embeds `{**r, **p}`: merge `p` over `r`, `p` winning on conflicts. -/
def dictMerge (r p : Rec) : Rec :=
  List.foldl (fun acc kv => dictSet acc kv.1 kv.2) r p

/-- Python `str(v)` on our value universe. -/
def pyStr : PyVal → String
  | .int n => toString n
  | .str s => s
  | .bool b => if b then "True" else "False"
  | .none => "None"

/-- Python truthiness of a value. -/
def pyTruthy : PyVal → Bool
  | .int n => n != 0
  | .str s => s != ""
  | .bool b => b
  | .none => false

/-- Python `str.strip()` (ASCII whitespace model), computed on the
character list so that it reduces in the kernel. -/
def strTrim (s : String) : String :=
  ((s.toList.dropWhile Char.isWhitespace).reverse.dropWhile Char.isWhitespace).reverse.asString

/-- Python `str.lower()` (ASCII model), computed on the character list. -/
def strLower (s : String) : String :=
  (s.toList.map Char.toLower).asString

/-- Lexicographic comparison of character lists by code point — how
Python compares strings. -/
def charListLe : List Char → List Char → Bool
  | [], _ => true
  | _ :: _, [] => false
  | a :: as, b :: bs =>
    if a.toNat < b.toNat then true
    else if b.toNat < a.toNat then false
    else charListLe as bs

/-- Python `a <= b` on strings. -/
def strLeB (a b : String) : Bool :=
  charListLe a.toList b.toList

/-- Digit run to a number; `Option.none` when empty or non-digit. -/
def digitsToNat? (cs : List Char) : Option Nat :=
  if cs ≠ [] ∧ cs.all Char.isDigit then
    some (cs.foldl (fun a c => a * 10 + (c.toNat - 48)) 0)
  else
    Option.none

/-- Python `int(s)` on a string: strips surrounding whitespace, accepts an
optional single sign followed by digits.  (Underscore digit separators are
not modelled.) -/
def strToInt? (s : String) : Option Int :=
  match (strTrim s).toList with
  | '-' :: rest => (digitsToNat? rest).map (fun n => -(n : Int))
  | '+' :: rest => (digitsToNat? rest).map (fun n => (n : Int))
  | cs => (digitsToNat? cs).map (fun n => (n : Int))

/-- Python `int(v)`: `Option.none` when the call raises
(`TypeError`/`ValueError`).  Note `int(True) = 1` and `int(False) = 0` —
Python treats booleans as integers. -/
def pyInt : PyVal → Option Int
  | .int n => some n
  | .bool b => some (if b then 1 else 0)
  | .str s => strToInt? s
  | .none => Option.none

/-- The domain error taxonomy of `src/conf/errors.py`, plus
`untypedError` standing for any raw Python exception that escapes the
domain-error discipline (`ValueError`, `TypeError`, ...).  The structured
`details` payload is dropped; only the message is kept. -/
inductive Err where
  | invalidID (msg : String)
  | duplicateID (msg : String)
  | immutableID (msg : String)
  | invalidInput (msg : String)
  | notFound (msg : String)
  | untypedError (msg : String)
deriving DecidableEq, Repr

/-! ### `src/record/common/validation.py` -/

/-- Embeds `validate_int_id(value, field)`: coerce to `int`, catching
`ValueError`/`TypeError` as `InvalidID`, then require the result to be
strictly positive. -/
def validate_int_id (value : PyVal) (field : String) : Except Err Int :=
  match pyInt value with
  | Option.none => .error (.invalidID (field ++ " must be an integer"))
  | some iv =>
    if iv ≤ 0 then .error (.invalidID (field ++ " must be > 0")) else .ok iv

/-- The generator scan inside `validate_unique_id`:
`any(int(x.get(field, -1)) == candidate_id for x in items)`.  A record
whose `field` value does not coerce to an integer makes the raw
`ValueError` escape (modelled as `untypedError`); short-circuits at the
first match like Python `any`. -/
def anyIdEq (field : String) (items : List Rec) (c : Int) : Except Err Bool :=
  match items with
  | [] => .ok false
  | x :: xs =>
    match pyInt (recGetD x field (PyVal.int (-1))) with
    | Option.none => .error (.untypedError "int coercion failed in validate_unique_id")
    | some n => if n = c then .ok true else anyIdEq field xs c

/-- Embeds `validate_unique_id(items, candidate_id, field)`. -/
def validate_unique_id (items : List Rec) (candidate : Int) (field : String) :
    Except Err Unit :=
  match anyIdEq field items candidate with
  | .error e => .error e
  | .ok true => .error (.duplicateID (field ++ " already exists: " ++ toString candidate))
  | .ok false => .ok ()

/-- Embeds `required_fields(payload, fields)`: a field is missing when
`str(payload.get(f, "")).strip()` is empty; every missing field is
collected (the `details` list is dropped from the error value). -/
def required_fields (payload : Rec) (fields : List String) : Except Err Unit :=
  if fields.any (fun f => strTrim (pyStr (recGetD payload f (PyVal.str ""))) = "") then
    .error (.invalidInput "Missing required fields")
  else
    .ok ()

/-- Canonical spellings from `src/conf/enums.py` (a Python `set`; only
membership is ever used, so the list order is immaterial). -/
def CLIENT_TYPES : List String := ["Business", "Corporate", "Leisure", "VIP"]

/-- Canonical airline type spellings from `src/conf/enums.py`. -/
def AIRLINE_TYPES : List String := ["Charter", "Low Cost", "National", "Regional"]

/-- Embeds `validate_enum(value, allowed, field)`: plain membership test, no
canonicalization (the allowed-set listing in the message is dropped). -/
def validate_enum (value : String) (allowed : List String) (field : String) :
    Except Err Unit :=
  if value ∈ allowed then .ok ()
  else .error (.invalidInput ("Invalid " ++ field))

/-- Character class of `PHONE_RE`s tail: `[\d\s().-]` (ASCII model of the
Unicode classes). -/
def phoneTailChar (c : Char) : Bool :=
  c.isDigit || c.isWhitespace || c = '(' || c = ')' || c = '.' || c = '-'

/-- Embeds `PHONE_RE.match`: `^[+\d][\d\s().-]{6,}$`. -/
def phone_ok (s : String) : Bool :=
  match s.toList with
  | [] => false
  | c :: rest => (c = '+' || c.isDigit) && rest.length ≥ 6 && rest.all phoneTailChar

/-- Embeds `validate_phone(phone)`. -/
def validate_phone (phone : String) : Except Err Unit :=
  if phone_ok phone then .ok ()
  else .error (.invalidInput "Invalid phone number format")

/-- Embeds `ZIP_RE.match`: `^[\w\s-]{3,12}$` (ASCII model of `\w`/`\s`). -/
def zip_ok (s : String) : Bool :=
  let cs := s.toList
  3 ≤ cs.length && cs.length ≤ 12 &&
    cs.all (fun c => c.isAlphanum || c = '_' || c.isWhitespace || c = '-')

/-- Embeds `validate_zip(zip_code)`. -/
def validate_zip (zip_code : String) : Except Err Unit :=
  if zip_ok zip_code then .ok ()
  else .error (.invalidInput "Invalid zip/postal code format")

/-! ### Dates

`dateutil.parser.isoparse` and the time-zone machinery are embedded just
far enough for the service rules: a parsed value keeps the civil fields
and an optional fixed UTC offset in minutes (`Option.none` = naive).  The
accepted grammar models the common ISO forms used by this repository:
`YYYY-MM-DD`, optionally followed by `THH:MM` or `THH:MM:SS`, optionally
followed by `Z` or a `±HH:MM` offset.  Calendar validity (month lengths,
leap years) is checked as `dateutil` does. -/

structure DT where
  year : Int
  month : Nat
  day : Nat
  hour : Nat
  minute : Nat
  second : Nat
  offset : Option Int
deriving DecidableEq, Repr

def isLeap (y : Int) : Bool :=
  y % 4 = 0 && (y % 100 ≠ 0 || y % 400 = 0)

def daysInMonth (y : Int) (m : Nat) : Nat :=
  if m = 2 then (if isLeap y then 29 else 28)
  else if m = 4 ∨ m = 6 ∨ m = 9 ∨ m = 11 then 30
  else 31

/-- Two ASCII digits to a number. -/
def two? (a b : Char) : Option Nat :=
  if a.isDigit ∧ b.isDigit then some ((a.toNat - 48) * 10 + (b.toNat - 48))
  else Option.none

/-- Four ASCII digits to a number. -/
def four? (a b c d : Char) : Option Nat :=
  match two? a b, two? c d with
  | some hi, some lo => some (hi * 100 + lo)
  | _, _ => Option.none

/-- Parse the `HH:MM[:SS]` time and trailing `Z`/`±HH:MM` offset. -/
def parseTimeOff? (cs : List Char) : Option (Nat × Nat × Nat × Option Int) :=
  let tail? : List Char → Option (Nat × Option Int) := fun rest =>
    match rest with
    | [] => some (0, Option.none)
    | ['Z'] => some (0, some 0)
    | [':', s1, s2] =>
      (two? s1 s2).map (fun ss => (ss, Option.none))
    | [':', s1, s2, 'Z'] =>
      (two? s1 s2).map (fun ss => (ss, some 0))
    | [':', s1, s2, sign, o1, o2, ':', o3, o4] =>
      match two? s1 s2, two? o1 o2, two? o3 o4 with
      | some ss, some oh, some om =>
        if sign = '+' then some (ss, some ((oh * 60 + om : Nat) : Int))
        else if sign = '-' then some (ss, some (-((oh * 60 + om : Nat) : Int)))
        else Option.none
      | _, _, _ => Option.none
    | [sign, o1, o2, ':', o3, o4] =>
      match two? o1 o2, two? o3 o4 with
      | some oh, some om =>
        if sign = '+' then some (0, some ((oh * 60 + om : Nat) : Int))
        else if sign = '-' then some (0, some (-((oh * 60 + om : Nat) : Int)))
        else Option.none
      | _, _ => Option.none
    | _ => Option.none
  match cs with
  | h1 :: h2 :: ':' :: m1 :: m2 :: rest =>
    match two? h1 h2, two? m1 m2, tail? rest with
    | some hh, some mm, some (ss, off) =>
      if hh ≤ 23 ∧ mm ≤ 59 ∧ ss ≤ 59 then some (hh, mm, ss, off) else Option.none
    | _, _, _ => Option.none
  | _ => Option.none

/-- Embeds `dateutil.parser.isoparse` (model): `Option.none` when the Python call
raises `ValueError`. -/
def isoparse? (s : String) : Option DT :=
  match s.toList with
  | y1 :: y2 :: y3 :: y4 :: '-' :: m1 :: m2 :: '-' :: d1 :: d2 :: rest =>
    match four? y1 y2 y3 y4, two? m1 m2, two? d1 d2 with
    | some y, some m, some d =>
      if 1 ≤ m ∧ m ≤ 12 ∧ 1 ≤ d ∧ d ≤ daysInMonth (y : Int) m then
        match rest with
        | [] => some ⟨(y : Int), m, d, 0, 0, 0, Option.none⟩
        | 'T' :: timeCs =>
          (parseTimeOff? timeCs).map
            (fun t => ⟨(y : Int), m, d, t.1, t.2.1, t.2.2.1, t.2.2.2⟩)
        | _ => Option.none
      else Option.none
    | _, _, _ => Option.none
  | _ => Option.none

/-- Days since 1970-01-01 of a civil date (standard civil-calendar
conversion). -/
def daysFromCivil (y : Int) (m d : Nat) : Int :=
  let y' : Int := if m ≤ 2 then y - 1 else y
  let era : Int := (if 0 ≤ y' then y' else y' - 399) / 400
  let yoe : Int := y' - era * 400
  let mp : Int := ((m : Int) + 9) % 12
  let doy : Int := (153 * mp + 2) / 5 + (d : Int) - 1
  let doe : Int := yoe * 365 + yoe / 4 - yoe / 100 + doy
  era * 146097 + doe - 719468

/-- Civil date from days since 1970-01-01 (inverse of `daysFromCivil`). -/
def civilFromDays (z0 : Int) : Int × Nat × Nat :=
  let z : Int := z0 + 719468
  let era : Int := (if 0 ≤ z then z else z - 146096) / 146097
  let doe : Int := z - era * 146097
  let yoe : Int := (doe - doe / 1460 + doe / 36524 - doe / 146096) / 365
  let y : Int := yoe + era * 400
  let doy : Int := doe - (365 * yoe + yoe / 4 - yoe / 100)
  let mp : Int := (5 * doy + 2) / 153
  let d : Int := doy - (153 * mp + 2) / 5 + 1
  let m : Int := if mp < 10 then mp + 3 else mp - 9
  ((if m ≤ 2 then y + 1 else y), m.toNat, d.toNat)

/-- Shift a `DT` by a number of minutes, propagating across day
boundaries; the result is marked as UTC (offset `0`). -/
def dtShiftMinutes (dt : DT) (delta : Int) : DT :=
  let total : Int :=
    daysFromCivil dt.year dt.month dt.day * 1440 + (dt.hour : Int) * 60 +
      (dt.minute : Int) + delta
  let days : Int := total / 1440
  let rem : Int := total % 1440
  let civ := civilFromDays days
  ⟨civ.1, civ.2.1, civ.2.2, (rem / 60).toNat, (rem % 60).toNat, dt.second, some 0⟩

def pad2 (n : Nat) : String :=
  if n < 10 then "0" ++ toString n else toString n

def pad4 (n : Int) : String :=
  let s := toString n
  if n < 10 then "000" ++ s else if n < 100 then "00" ++ s
  else if n < 1000 then "0" ++ s else s

/-- Embeds `datetime.isoformat()` of a UTC-aware value. -/
def isoformatUTC (dt : DT) : String :=
  pad4 dt.year ++ "-" ++ pad2 dt.month ++ "-" ++ pad2 dt.day ++ "T" ++
    pad2 dt.hour ++ ":" ++ pad2 dt.minute ++ ":" ++ pad2 dt.second ++ "+00:00"

/-- Embeds `parse_datetime_to_utc(dt_str, default_tz)` from
`src/record/common/validation.py`.  `tzdb` models the IANA zone database
(`ZoneInfo`): the fixed offset in minutes for a zone name, `Option.none`
for an unknown zone (where Python `ZoneInfo` raises).  Faithful to the
source, only the blank check is guarded: an unparseable non-blank input
makes `parser.isoparse` raise a raw `ValueError`, which escapes untyped
(`Err.untypedError`). -/
def parse_datetime_to_utc (dt_str : PyVal) (default_tz : String)
    (tzdb : String → Option Int) : Except Err String :=
  if ¬ pyTruthy dt_str ∨ strTrim (pyStr dt_str) = "" then
    .error (.invalidInput "Date/time is required")
  else
    match isoparse? (strTrim (pyStr dt_str)) with
    | Option.none => .error (.untypedError "ValueError: invalid isoformat string")
    | some dt =>
      match dt.offset with
      | some off => .ok (isoformatUTC (dtShiftMinutes dt (-off)))
      | Option.none =>
        match tzdb default_tz with
        | Option.none => .error (.untypedError "ZoneInfoNotFoundError")
        | some off => .ok (isoformatUTC (dtShiftMinutes dt (-off)))

/-! ### Validation helpers used by the flights service

`src/record/flights/service.py` imports `require_int_id`, `require_fields`
and `parse_iso_datetime` from `src.record.common.validation`, but the
sources of that module do not define them; they are modelled from the
spec. -/

/-- Modelled from the spec: `require_int_id` (imported by the flights
service, absent from the sources).  Per §4.3, it "fails with InvalidID if
not parseable as an integer or not strictly positive.  Boolean-typed
values must be rejected even though some languages treat booleans as
integer-compatible." -/
def require_int_id (value : PyVal) (field : String) : Except Err Int :=
  match value with
  | .bool _ => .error (.invalidID (field ++ " must be an integer"))
  | v =>
    match pyInt v with
    | Option.none => .error (.invalidID (field ++ " must be an integer"))
    | some iv =>
      if iv ≤ 0 then .error (.invalidID (field ++ " must be > 0")) else .ok iv

/-- Modelled from the spec: `require_fields` (imported by the flights
service, absent from the sources).  Per §4.3, it "fails with InvalidInput
listing every missing-or-empty-string field name". -/
def require_fields (payload : Rec) (fields : List String) : Except Err Unit :=
  if fields.any (fun f => strTrim (pyStr (recGetD payload f (PyVal.str ""))) = "") then
    .error (.invalidInput "Missing required fields")
  else
    .ok ()

/-- Modelled from the spec: `parse_iso_datetime` (imported by the flights
service, absent from the sources).  Per §4.3 `parse_date` "accepts a bare
date (`YYYY-MM-DD`, implying midnight) or a full date-time, with or
without a trailing UTC marker; fails with InvalidInput on empty or
unparseable input." -/
def parse_iso_datetime (s : String) : Except Err DT :=
  match isoparse? s with
  | some dt => .ok dt
  | Option.none => .error (.invalidInput "Invalid date")

/-! ### Repositories

The in-memory record list is the whole repository state; `Storage`,
autosave and the env-aware singletons carry no domain logic and are not
modelled.  Python mutates the list in place; here every mutating call
returns the new list. -/

namespace ClientsRepo

/-- Embeds `ClientsRepo.get_by_id`: linear scan comparing
`int(rec.get("id", -1)) == int(client_id)`; returns `None` (here
`Option.none`) when no record matches.  A stored record whose `id` does
not coerce makes the raw exception escape. -/
def get_by_id (clients : List Rec) (client_id : Int) : Except Err (Option Rec) :=
  match clients with
  | [] => .ok Option.none
  | r :: rest =>
    match pyInt (recGetD r "id" (PyVal.int (-1))) with
    | Option.none => .error (.untypedError "int coercion failed in ClientsRepo.get_by_id")
    | some n => if n = client_id then .ok (some r) else get_by_id rest client_id

/-- Embeds `ClientsRepo.insert`: append and return the stored copy. -/
def insert (clients : List Rec) (record : Rec) : List Rec × Rec :=
  (clients ++ [record], record)

/-- Embeds `ClientsRepo.update`: first match by id; the new record is
`{**rec, **{k: v for k, v in patch.items() if k != "id"}}` — the `id`
key of the patch is discarded. -/
def update (clients : List Rec) (client_id : Int) (patch : Rec) :
    Except Err (List Rec × Rec) :=
  match clients with
  | [] => .error (.notFound ("Client " ++ toString client_id ++ " not found"))
  | r :: rest =>
    match pyInt (recGetD r "id" (PyVal.int (-1))) with
    | Option.none => .error (.untypedError "int coercion failed in ClientsRepo.update")
    | some n =>
      if n = client_id then
        let newRec := dictMerge r (patch.filter (fun kv => kv.1 ≠ "id"))
        .ok (newRec :: rest, newRec)
      else
        match update rest client_id patch with
        | .error e => .error e
        | .ok (rest', rec) => .ok (r :: rest', rec)

/-- Embeds `ClientsRepo.delete`: remove the first match, returning whether a
record was removed. -/
def delete (clients : List Rec) (client_id : Int) : Except Err (Bool × List Rec) :=
  match clients with
  | [] => .ok (false, [])
  | r :: rest =>
    match pyInt (recGetD r "id" (PyVal.int (-1))) with
    | Option.none => .error (.untypedError "int coercion failed in ClientsRepo.delete")
    | some n =>
      if n = client_id then .ok (true, rest)
      else
        match delete rest client_id with
        | .error e => .error e
        | .ok (removed, rest') => .ok (removed, r :: rest')

end ClientsRepo

namespace AirlinesRepo

/-- Embeds `AirlinesRepo.get_by_id`: unlike the clients repo this RAISES
`NotFound` when no record matches. -/
def get_by_id (airlines : List Rec) (airline_id : Int) : Except Err Rec :=
  match airlines with
  | [] => .error (.notFound ("Airline " ++ toString airline_id ++ " not found"))
  | r :: rest =>
    match pyInt (recGetD r "id" (PyVal.int (-1))) with
    | Option.none => .error (.untypedError "int coercion failed in AirlinesRepo.get_by_id")
    | some n => if n = airline_id then .ok r else get_by_id rest airline_id

/-- Embeds `AirlinesRepo.insert`. -/
def insert (airlines : List Rec) (record : Rec) : List Rec × Rec :=
  (airlines ++ [record], record)

/-- Embeds `AirlinesRepo.update`: `updated = dict(rec); updated.update(patch)` —
the whole patch is applied, `id` included. -/
def update (airlines : List Rec) (airline_id : Int) (patch : Rec) :
    Except Err (List Rec × Rec) :=
  match airlines with
  | [] => .error (.notFound ("Airline " ++ toString airline_id ++ " not found"))
  | r :: rest =>
    match pyInt (recGetD r "id" (PyVal.int (-1))) with
    | Option.none => .error (.untypedError "int coercion failed in AirlinesRepo.update")
    | some n =>
      if n = airline_id then
        let updated := dictMerge r patch
        .ok (updated :: rest, updated)
      else
        match update rest airline_id patch with
        | .error e => .error e
        | .ok (rest', rec) => .ok (r :: rest', rec)

/-- Embeds `AirlinesRepo.delete`. -/
def delete (airlines : List Rec) (airline_id : Int) : Except Err (Bool × List Rec) :=
  match airlines with
  | [] => .ok (false, [])
  | r :: rest =>
    match pyInt (recGetD r "id" (PyVal.int (-1))) with
    | Option.none => .error (.untypedError "int coercion failed in AirlinesRepo.delete")
    | some n =>
      if n = airline_id then .ok (true, rest)
      else
        match delete rest airline_id with
        | .error e => .error e
        | .ok (removed, rest') => .ok (removed, r :: rest')

end AirlinesRepo

/-- The row condition of the flights repo and the uniqueness scan:
`int(rec.get("client_id", -1)) == int(client_id) and
int(rec.get("airline_id", -1)) == int(airline_id) and
rec.get("date") == date` — Python `and` short-circuits, so the
`airline_id` coercion only runs when the `client_id` sides are equal, and
the raw date value is compared to the date STRING. -/
def flightRowMatches (f : Rec) (client_id airline_id : Int) (date : String) :
    Except Err Bool :=
  match pyInt (recGetD f "client_id" (PyVal.int (-1))) with
  | Option.none => .error (.untypedError "int coercion failed on client_id")
  | some c =>
    if c = client_id then
      match pyInt (recGetD f "airline_id" (PyVal.int (-1))) with
      | Option.none => .error (.untypedError "int coercion failed on airline_id")
      | some a =>
        if a = airline_id then
          .ok (decide (recGetD f "date" PyVal.none = PyVal.str date))
        else .ok false
    else .ok false

namespace FlightsRepo

/-- Embeds `FlightsRepo.get_one`: raises `NotFound` when no row matches the
composite `(client_id, airline_id, date)` key. -/
def get_one (flights : List Rec) (client_id airline_id : Int) (date : String) :
    Except Err Rec :=
  match flights with
  | [] => .error (.notFound "Flight not found in repo")
  | f :: rest =>
    match flightRowMatches f client_id airline_id date with
    | .error e => .error e
    | .ok true => .ok f
    | .ok false => get_one rest client_id airline_id date

/-- Embeds `FlightsRepo.insert`. -/
def insert (flights : List Rec) (record : Rec) : List Rec × Rec :=
  (flights ++ [record], record)

/-- Embeds `FlightsRepo.update`: `updated = dict(rec); updated.update(patch)` —
the whole patch is applied, the composite-identity fields included. -/
def update (flights : List Rec) (client_id airline_id : Int) (date : String)
    (patch : Rec) : Except Err (List Rec × Rec) :=
  match flights with
  | [] => .error (.notFound "Flight not found in repo")
  | f :: rest =>
    match flightRowMatches f client_id airline_id date with
    | .error e => .error e
    | .ok true =>
      let updated := dictMerge f patch
      .ok (updated :: rest, updated)
    | .ok false =>
      match update rest client_id airline_id date patch with
      | .error e => .error e
      | .ok (rest', rec) => .ok (f :: rest', rec)

/-- Embeds `FlightsRepo.delete`. -/
def delete (flights : List Rec) (client_id airline_id : Int) (date : String) :
    Except Err (Bool × List Rec) :=
  match flights with
  | [] => .ok (false, [])
  | f :: rest =>
    match flightRowMatches f client_id airline_id date with
    | .error e => .error e
    | .ok true => .ok (true, rest)
    | .ok false =>
      match delete rest client_id airline_id date with
      | .error e => .error e
      | .ok (removed, rest') => .ok (removed, f :: rest')

end FlightsRepo

/-! ### `src/record/common/search.py` -/

/-- Embeds `to_lowercase(value)`: `str(value or "").lower()` (ASCII case
folding models Python Unicode folding). -/
def to_lowercase (v : PyVal) : String :=
  strLower (pyStr (if pyTruthy v then v else PyVal.str ""))

/-- Substring containment (Python `in` on strings), on the character
lists. -/
def charsContain (hay needle : List Char) : Bool :=
  if needle.isPrefixOf hay then true
  else
    match hay with
    | [] => needle.isEmpty
    | _ :: rest => charsContain rest needle

/-- Python `needle in hay` for strings. -/
def strContains (hay needle : String) : Bool :=
  charsContain hay.toList needle.toList

/-- Embeds `matches_any_fields(record, fields, q)`. -/
def matches_any_fields (record : Rec) (fields : List String) (q : String) : Bool :=
  fields.any (fun f => strContains (to_lowercase (recGetD record f PyVal.none)) (strLower q))

/-- Embeds `filter_by_q(items, fields, q)`. -/
def filter_by_q (items : List Rec) (fields : List String) (q : String) : List Rec :=
  if strTrim q = "" then items
  else items.filter (fun r => matches_any_fields r fields (strTrim q))

/-! ### Clients / airlines service helpers -/

/-- Embeds `_normalize_text(s)` / `_norm(x)`: `str(s or "").strip()`. -/
def normalize_text (v : PyVal) : String :=
  strTrim (pyStr (if pyTruthy v then v else PyVal.str ""))

/-- Embeds `_equals_ci(a, b)`: case-insensitive trimmed equality. -/
def equals_ci (a b : PyVal) : Bool :=
  strLower (normalize_text a) = strLower (normalize_text b)

/-- Embeds `_apply_exact_filters(items, **filters)`: each filter with non-blank
value keeps only case-insensitively equal records, in the keyword order
of the call site. -/
def apply_exact_filters (items : List Rec) (filters : List (String × PyVal)) :
    List Rec :=
  match filters with
  | [] => items
  | (field, val) :: rest =>
    if normalize_text val ≠ "" then
      apply_exact_filters (items.filter (fun r => equals_ci (recGetD r field PyVal.none) val)) rest
    else
      apply_exact_filters items rest

/-- Allowed sort keys of the clients service. -/
def ALLOWED_SORTS_CLIENTS : List String := ["id", "name", "city", "state", "country", "type"]

/-- Allowed sort keys of the airlines service. -/
def ALLOWED_SORTS_AIRLINES : List String := ["id", "company_name", "type"]

/-- The `id` branch of `_safe_sort_key`:
`int(val if val is not None else 0)` with any failure collapsing to `0`. -/
def idSortInt (r : Rec) (k : String) : Int :=
  match recGet? r k with
  | Option.none => 0
  | some v => (pyInt v).getD 0

/-- The non-`id` branch of `_safe_sort_key`: `str(val or "").lower()`. -/
def strSortVal (r : Rec) (k : String) : String :=
  to_lowercase (recGetD r k PyVal.none)

/-- Embeds `_safe_sort_key(key)` (shared shape of the clients and airlines
versions): fall back to `"id"` when the key is not allow-listed; the `id`
key yields an integer, every other key a lowercased string. -/
def safe_sort_val (allowed : List String) (key : String) (r : Rec) : Sum Int String :=
  let k := if key ∈ allowed then key else "id"
  if k = "id" then Sum.inl (idSortInt r k) else Sum.inr (strSortVal r k)

/-- Comparison of two sort-key values, as Python compares the values
produced by `_safe_sort_key` (within one call both sides are always the
same variant; the cross-variant cases are arbitrary but fixed to keep the
relation total). -/
def sortValLe : Sum Int String → Sum Int String → Bool
  | .inl a, .inl b => decide (a ≤ b)
  | .inr a, .inr b => strLeB a b
  | .inl _, .inr _ => true
  | .inr _, .inl _ => false

/-- Record comparison by an allow-listed (or fallen-back) sort key. -/
def sort_le (allowed : List String) (key : String) (a b : Rec) : Bool :=
  sortValLe (safe_sort_val allowed key a) (safe_sort_val allowed key b)

/-- Embeds `sorted(items, key=_safe_sort_key(k))`: a stable sort by the key
(insertion sort is stable, like Python timsort). -/
def sort_records (allowed : List String) (key : String) (items : List Rec) :
    List Rec :=
  List.insertionSort (fun a b => sort_le allowed key a b = true) items

/-- The normalized sort key: `_normalize_text(sort).lower() or "id"`. -/
def norm_sort_key (sort : PyVal) : String :=
  let s := strLower (normalize_text sort)
  if s = "" then "id" else s

/-- The paging clamp `max(0, min(int(limit), MAX_LIMIT))` with
`MAX_LIMIT = 200`. -/
def clamp_limit (l : Int) : Int := max 0 (min l 200)

/-- The offset clamp `max(0, int(offset))`. -/
def clamp_offset (o : Int) : Int := max 0 o

/-- The envelope returned by `list_clients` / `search_clients` /
`list_airlines`. -/
structure ListEnvelope where
  data : List Rec
  count : Nat
  limit : Int
  offset : Int
  sortKey : String
deriving DecidableEq, Repr

/-- The envelope returned by `search_airlines` (no pagination). -/
structure AirSearchEnvelope where
  data : List Rec
  count : Nat
  sortKey : String
deriving DecidableEq, Repr

/-- The Python slice `items[offset : offset + limit] if limit > 0 else
items[offset:]` (both bounds already clamped non-negative). -/
def page_window (items : List Rec) (limit offset : Int) : List Rec :=
  if 0 < limit then (items.drop offset.toNat).take limit.toNat
  else items.drop offset.toNat

/-! ### `src/record/clients/service.py` -/

/-- Embeds `_validate_client_formats(payload)`: enum membership on the trimmed
`type`, then phone, then zip. -/
def validate_client_formats (payload : Rec) : Except Err Unit :=
  match validate_enum (normalize_text (recGetD payload "type" PyVal.none)) CLIENT_TYPES "type" with
  | .error e => .error e
  | .ok _ =>
    match validate_phone (normalize_text (recGetD payload "phone_number" PyVal.none)) with
    | .error e => .error e
    | .ok _ => validate_zip (normalize_text (recGetD payload "zip_code" PyVal.none))

/-- Step 4 of `create_client` / step 5 of `update_client` applied at
creation: blank optional address lines are set to `None` (the key is
written even when absent, as `record[opt] = None` does). -/
def normalize_optional_address (record : Rec) : Rec :=
  let r1 :=
    if normalize_text (recGetD record "address_line2" PyVal.none) = "" then
      dictSet record "address_line2" PyVal.none
    else record
  if normalize_text (recGetD r1 "address_line3" PyVal.none) = "" then
    dictSet r1 "address_line3" PyVal.none
  else r1

/-- Embeds `create_client(payload)`: required fields, id validity, uniqueness,
enum/format checks, blank-address normalization, then insert.  Returns
the new repository state together with the stored record. -/
def create_client (clients : List Rec) (payload : Rec) :
    Except Err (List Rec × Rec) :=
  match required_fields payload ["id", "type", "name"] with
  | .error e => .error e
  | .ok _ =>
    match validate_int_id (recGetD payload "id" PyVal.none) "id" with
    | .error e => .error e
    | .ok client_id =>
      match validate_unique_id clients client_id "id" with
      | .error e => .error e
      | .ok _ =>
        match validate_client_formats payload with
        | .error e => .error e
        | .ok _ => .ok (ClientsRepo.insert clients (normalize_optional_address payload))

/-- Embeds `delete_client(client_id)`: validate the id, delete in the repo, and
raise `NotFound` when nothing was removed.  (Faithful to the source: the
flights repository is never consulted.) -/
def delete_client (clients : List Rec) (client_id : PyVal) :
    Except Err (List Rec) :=
  match validate_int_id client_id "id" with
  | .error e => .error e
  | .ok cid =>
    match ClientsRepo.delete clients cid with
    | .error e => .error e
    | .ok (removed, clients') =>
      if removed then .ok clients'
      else .error (.notFound ("Client " ++ toString cid ++ " not found"))

/-- Fields searched by `search_clients` for the free-text query. -/
def SEARCH_FIELDS_CLIENTS : List String := ["id", "name", "city", "country", "phone_number"]

/-- Embeds `list_clients(limit, offset, sort)`. -/
def list_clients (clients : List Rec) (limit offset : PyVal) (sort : PyVal) :
    Except Err ListEnvelope :=
  match pyInt limit, pyInt offset with
  | some l0, some o0 =>
    let l := clamp_limit l0
    let o := clamp_offset o0
    let sk := norm_sort_key sort
    if sk ∈ ALLOWED_SORTS_CLIENTS then
      let sortedItems := sort_records ALLOWED_SORTS_CLIENTS sk clients
      .ok ⟨page_window sortedItems l o, sortedItems.length, l, o, sk⟩
    else .error (.invalidInput "Invalid sort key")
  | _, _ => .error (.invalidInput "limit/offset must be integers")

/-- Embeds `search_clients(q, type, city, state, country, limit, offset, sort)`. -/
def search_clients (clients : List Rec) (q : String)
    (type city state country : PyVal) (limit offset : PyVal) (sort : PyVal) :
    Except Err ListEnvelope :=
  match pyInt limit, pyInt offset with
  | some l0, some o0 =>
    let l := clamp_limit l0
    let o := clamp_offset o0
    let sk := norm_sort_key sort
    if sk ∈ ALLOWED_SORTS_CLIENTS then
      let items := filter_by_q clients SEARCH_FIELDS_CLIENTS q
      let items := apply_exact_filters items
        [("type", type), ("city", city), ("state", state), ("country", country)]
      let sortedItems := sort_records ALLOWED_SORTS_CLIENTS sk items
      .ok ⟨page_window sortedItems l o, sortedItems.length, l, o, sk⟩
    else .error (.invalidInput "Invalid sort key")
  | _, _ => .error (.invalidInput "limit/offset must be integers")

/-! ### `src/record/airlines/service.py` -/

/-- Embeds `_canonical_airline_type(value)`: trim, replace underscores with
spaces, lower-case, then return the canonical spelling whose lower-case
form matches; `InvalidInput` otherwise.  (The canonical spellings have
distinct lower-case forms, so the set-iteration order is immaterial.) -/
def canonical_airline_type (value : PyVal) : Except Err String :=
  let v := ((normalize_text value).toList.map
    (fun c => if c = '_' then ' ' else c)).asString |> strLower
  match AIRLINE_TYPES.find? (fun opt => strLower opt = v) with
  | some opt => .ok opt
  | Option.none => .error (.invalidInput "Invalid type")

/-- Embeds `create_airline(payload)`: required fields, id validity, uniqueness,
then `record["type"] = _canonical_airline_type(record.get("type"))` and
insert. -/
def create_airline (airlines : List Rec) (payload : Rec) :
    Except Err (List Rec × Rec) :=
  match required_fields payload ["id", "type", "company_name"] with
  | .error e => .error e
  | .ok _ =>
    match validate_int_id (recGetD payload "id" PyVal.none) "id" with
    | .error e => .error e
    | .ok airline_id =>
      match validate_unique_id airlines airline_id "id" with
      | .error e => .error e
      | .ok _ =>
        match canonical_airline_type (recGetD payload "type" PyVal.none) with
        | .error e => .error e
        | .ok canon =>
          .ok (AirlinesRepo.insert airlines (dictSet payload "type" (PyVal.str canon)))

/-- Embeds `delete_airline(airline_id)`: validate the id, delete in the repo,
`NotFound` when nothing was removed.  (Faithful to the source: the
flights repository is never consulted.) -/
def delete_airline (airlines : List Rec) (airline_id : PyVal) :
    Except Err (List Rec) :=
  match validate_int_id airline_id "id" with
  | .error e => .error e
  | .ok aid =>
    match AirlinesRepo.delete airlines aid with
    | .error e => .error e
    | .ok (removed, airlines') =>
      if removed then .ok airlines'
      else .error (.notFound ("Airline " ++ toString aid ++ " not found"))

/-- Fields searched by `search_airlines`. -/
def SEARCH_FIELDS_AIRLINES : List String := ["id", "company_name", "type"]

/-- Embeds `list_airlines(limit, offset, sort)`. -/
def list_airlines (airlines : List Rec) (limit offset : PyVal) (sort : PyVal) :
    Except Err ListEnvelope :=
  match pyInt limit, pyInt offset with
  | some l0, some o0 =>
    let l := clamp_limit l0
    let o := clamp_offset o0
    let sk := norm_sort_key sort
    if sk ∈ ALLOWED_SORTS_AIRLINES then
      let sortedItems := sort_records ALLOWED_SORTS_AIRLINES sk airlines
      .ok ⟨page_window sortedItems l o, sortedItems.length, l, o, sk⟩
    else .error (.invalidInput "Invalid sort key")
  | _, _ => .error (.invalidInput "limit/offset must be integers")

/-- Embeds `search_airlines(q, type, sort)`: all matches, unpaginated. -/
def search_airlines (airlines : List Rec) (q : String) (type : PyVal)
    (sort : PyVal) : Except Err AirSearchEnvelope :=
  let sk := norm_sort_key sort
  if sk ∈ ALLOWED_SORTS_AIRLINES then
    let items := filter_by_q airlines SEARCH_FIELDS_AIRLINES q
    let items :=
      if normalize_text type ≠ "" then
        items.filter (fun r => equals_ci (recGetD r "type" PyVal.none) type)
      else items
    let sortedItems := sort_records ALLOWED_SORTS_AIRLINES sk items
    .ok ⟨sortedItems, sortedItems.length, sk⟩
  else .error (.invalidInput "Invalid sort key")

/-! ### `src/record/flights/service.py` -/

/-- Embeds `_exists_client(client_id)`: `try: get_clients_repo().get_by_id(...);
return True except Exception: return False`.  `ClientsRepo.get_by_id`
returns `None` rather than raising when no record matches, so this is
`true` whether or not the client exists — it is `false` only when the
scan itself raises. -/
def exists_client (clients : List Rec) (client_id : Int) : Bool :=
  match ClientsRepo.get_by_id clients client_id with
  | .error _ => false
  | .ok _ => true

/-- Embeds `_exists_airline(airline_id)`: same `try/except` shape, but
`AirlinesRepo.get_by_id` raises `NotFound` for a missing record, so this
one really reports existence. -/
def exists_airline (airlines : List Rec) (airline_id : Int) : Bool :=
  match AirlinesRepo.get_by_id airlines airline_id with
  | .error _ => false
  | .ok _ => true

/-- Required flight payload fields. -/
def FLIGHT_REQUIRED_FIELDS : List String :=
  ["client_id", "airline_id", "date", "start_city", "end_city"]

/-- The uniqueness `for` loop of `create_flight`: error at the first row
matching the `(client_id, airline_id, raw date string)` triple. -/
def flights_dup_scan (flights : List Rec) (client_id airline_id : Int)
    (date : String) : Except Err Bool :=
  match flights with
  | [] => .ok false
  | f :: rest =>
    match flightRowMatches f client_id airline_id date with
    | .error e => .error e
    | .ok true => .ok true
    | .ok false => flights_dup_scan rest client_id airline_id date

/-- The five-field record `create_flight` inserts: the coerced ids, the
ORIGINAL date string, and the two cities. -/
def new_flight_record (client_id airline_id : Int) (date_txt : String)
    (payload : Rec) : Rec :=
  [("client_id", PyVal.int client_id),
   ("airline_id", PyVal.int airline_id),
   ("date", PyVal.str date_txt),
   ("start_city", recGetD payload "start_city" PyVal.none),
   ("end_city", recGetD payload "end_city" PyVal.none)]

/-- Embeds `create_flight(payload)`: required fields, integer ids, parseable
date, FK checks, uniqueness on the raw triple, then insert the five-field
record carrying the ORIGINAL date string. -/
def create_flight (clients airlines flights : List Rec) (payload : Rec) :
    Except Err (List Rec × Rec) :=
  match require_fields payload FLIGHT_REQUIRED_FIELDS with
  | .error e => .error e
  | .ok _ =>
    match require_int_id (recGetD payload "client_id" PyVal.none) "client_id" with
    | .error e => .error e
    | .ok client_id =>
      match require_int_id (recGetD payload "airline_id" PyVal.none) "airline_id" with
      | .error e => .error e
      | .ok airline_id =>
        let date_txt := pyStr (recGetD payload "date" PyVal.none)
        match parse_iso_datetime date_txt with
        | .error e => .error e
        | .ok _ =>
          if ¬ exists_client clients client_id then
            .error (.invalidInput "Unknown client_id")
          else if ¬ exists_airline airlines airline_id then
            .error (.invalidInput "Unknown airline_id")
          else
            match flights_dup_scan flights client_id airline_id date_txt with
            | .error e => .error e
            | .ok true => .error (.invalidInput "Flight already exists for this client/airline/date")
            | .ok false =>
              .ok (FlightsRepo.insert flights
                (new_flight_record client_id airline_id date_txt payload))

/-- The "block identity change" loop of `update_flight`, faithful to the
source comparison
`str(updates[k]) != (str(client_id) if k != "date" else date)`: for BOTH
id keys the right-hand side is `str(client_id)` — the `airline_id` entry
of the patch is compared against the CLIENT id. -/
def flight_identity_block (updates : Rec) (client_id : Int) (date : String) :
    Except Err Unit :=
  let check : String → Except Err Unit := fun k =>
    match recGet? updates k with
    | Option.none => .ok ()
    | some v =>
      if pyStr v ≠ (if k ≠ "date" then toString client_id else date) then
        .error (.immutableID (k ++ " cannot change"))
      else .ok ()
  match check "client_id" with
  | .error e => .error e
  | .ok _ =>
    match check "airline_id" with
    | .error e => .error e
    | .ok _ => check "date"

/-- Embeds `update_flight(client_id, airline_id, date, updates)`. -/
def update_flight (flights : List Rec) (client_id airline_id : PyVal)
    (date : String) (updates : Rec) : Except Err (List Rec × Rec) :=
  match require_int_id client_id "client_id" with
  | .error e => .error e
  | .ok cid =>
    match require_int_id airline_id "airline_id" with
    | .error e => .error e
    | .ok aid =>
      match parse_iso_datetime date with
      | .error e => .error e
      | .ok _ =>
        match flight_identity_block updates cid date with
        | .error e => .error e
        | .ok _ =>
          match (if (recGet? updates "date").isSome then
                   (parse_iso_datetime (pyStr (recGetD updates "date" PyVal.none))).map
                     (fun _ => ())
                 else .ok ()) with
          | .error e => .error e
          | .ok _ => FlightsRepo.update flights cid aid date updates

/-! ### Concrete fixtures (mirroring the repository's own test data) -/

/-- The pytest clients fixture payload (`tests/test_clients_service.py`),
with its lower-case `type: "business"`. -/
def clientPayloadBusiness : Rec :=
  [("id", PyVal.int 1), ("type", PyVal.str "business"), ("name", PyVal.str "Alice"),
   ("address_line1", PyVal.str "123 Ave"), ("city", PyVal.str "San Jose"),
   ("state", PyVal.str "SJ"), ("zip_code", PyVal.str "10101"),
   ("country", PyVal.str "CR"), ("phone_number", PyVal.str "+506 8888-8888")]

/-- A stored client record with id 101. -/
def client101 : Rec := [("id", PyVal.int 101), ("name", PyVal.str "Alice")]

/-- A stored airline record with id 301. -/
def airline301 : Rec := [("id", PyVal.int 301), ("company_name", PyVal.str "Air X")]

/-- A stored airline record with id 800. -/
def airline800 : Rec :=
  [("id", PyVal.int 800), ("type", PyVal.str "Low Cost"), ("company_name", PyVal.str "LC")]

/-- A flight referencing client 101 / airline 301 on a far-future date. -/
def futureFlight101 : Rec :=
  [("client_id", PyVal.int 101), ("airline_id", PyVal.int 301),
   ("date", PyVal.str "2999-01-01"), ("start_city", PyVal.str "A"),
   ("end_city", PyVal.str "B")]

/-- A flight-creation payload whose `client_id` 5 matches no client. -/
def flightPayloadClient5 : Rec :=
  [("client_id", PyVal.int 5), ("airline_id", PyVal.int 800),
   ("date", PyVal.str "2999-01-01"), ("start_city", PyVal.str "A"),
   ("end_city", PyVal.str "B")]

/-- The record `create_flight` builds from `flightPayloadClient5`. -/
def flightRecClient5 : Rec :=
  [("client_id", PyVal.int 5), ("airline_id", PyVal.int 800),
   ("date", PyVal.str "2999-01-01"), ("start_city", PyVal.str "A"),
   ("end_city", PyVal.str "B")]

/-- A stored flight with composite key `(1, 2, "2999-01-01")`. -/
def flight12 : Rec :=
  [("client_id", PyVal.int 1), ("airline_id", PyVal.int 2),
   ("date", PyVal.str "2999-01-01"), ("start_city", PyVal.str "A"),
   ("end_city", PyVal.str "B")]

/-! ### C1 -/

/-- C1: the claim says `delete_client`/`delete_airline` consult the
flights repository and fail with `InvalidInput` when a today-or-future
flight references the record.  The source services never look at flights
at all — their embeddings do not even take the flights state — so the
delete succeeds and removes the record even though `futureFlight101`
references client 101 and airline 301 with the parseable far-future date
`"2999-01-01"` (third conjunct).  This contradicts the repository's own
unit tests (`tests_unittest/test_clients_service.py` and
`test_airlines_service.py`, "deletion should be blocked"). -/
theorem delete_ignores_future_flights :
    delete_client [client101] (PyVal.int 101) = .ok []
    ∧ delete_airline [airline301] (PyVal.int 301) = .ok []
    ∧ parse_iso_datetime "2999-01-01" = .ok ⟨2999, 1, 1, 0, 0, 0, Option.none⟩
    ∧ recGetD futureFlight101 "client_id" PyVal.none = PyVal.int 101
    ∧ recGetD futureFlight101 "airline_id" PyVal.none = PyVal.int 301 := by
  refine ⟨rfl, rfl, rfl, rfl, rfl⟩

/-! ### C2 -/

/-- C2: the claim says a flight creation whose `client_id` matches no
stored client fails with `InvalidInput` ("unknown client_id").  In the
source, `_exists_client` wraps `ClientsRepo.get_by_id` in `try/except`,
but that repo returns `None` instead of raising for a missing record, so
the check always passes: with NO clients stored at all, the flight for
client 5 is inserted (first conjunct).  The airline half works as
claimed, because `AirlinesRepo.get_by_id` raises `NotFound` (second
conjunct).  This contradicts `create_flight`s own docstring ("validates
foreign keys exist (client/airline)"). -/
theorem create_flight_unknown_client_inserted :
    create_flight [] [airline800] [] flightPayloadClient5 =
      .ok ([flightRecClient5], flightRecClient5)
    ∧ create_flight [] [] [] flightPayloadClient5 =
      .error (.invalidInput "Unknown airline_id") := by
  refine ⟨rfl, rfl⟩

/-! ### C4 -/

/-- C4: the claim says a client `type` differing from the canonical
spelling only by case ("business") is accepted and stored canonicalized
("Business").  The source validates `type` with `validate_enum`, a plain
membership test against `{"Business", "Corporate", "Leisure", "VIP"}`
with no case folding and no canonicalization, so the repository's own
test payload (`type: "business"`) is REJECTED with `InvalidInput`; the
already-canonical spelling is accepted and stored verbatim.  This
contradicts both test suites
(`tests/test_clients_service.py::test_create_valid_and_duplicate` and
`tests_unittest/test_clients_service.py`, which asserts
`created["type"] == "Business"` for input `"business"`). -/
theorem create_client_rejects_lowercase_type :
    create_client [] clientPayloadBusiness = .error (.invalidInput "Invalid type")
    ∧ (create_client [] (dictSet clientPayloadBusiness "type" (PyVal.str "Business"))).isOk
      = true := by
  refine ⟨rfl, rfl⟩

/-! ### C6 -/

/-- C6: the claim says `update_flight` raises `ImmutableID` exactly when
the patch carries a key component with a value DIFFERENT from the path
component.  The source compares `str(updates[k])` against
`str(client_id)` for BOTH id keys (`(str(client_id) if k != "date" else
date)`), so on the flight `(1, 2, "2999-01-01")`: a patch restating the
unchanged `airline_id` 2 is rejected with `ImmutableID` (first conjunct),
while a patch setting `airline_id` to the client id 1 slips through the
check and the repo merge rewrites the stored key component (second
conjunct).  This contradicts the function's own docstring ("Identity
fields (client_id, airline_id, date) cannot change"). -/
theorem update_flight_identity_check_misfires :
    update_flight [flight12] (PyVal.int 1) (PyVal.int 2) "2999-01-01"
        [("airline_id", PyVal.int 2)] =
      .error (.immutableID "airline_id cannot change")
    ∧ (update_flight [flight12] (PyVal.int 1) (PyVal.int 2) "2999-01-01"
        [("airline_id", PyVal.int 1)]).map
          (fun res => recGetD res.2 "airline_id" PyVal.none) =
      .ok (PyVal.int 1) := by
  refine ⟨rfl, rfl⟩

/-! ### C8 -/

/-- C8: the claim says the date-parsing helper
(`parse_datetime_to_utc`) raises the typed `InvalidInput` both on blank
and on unparseable input and never lets an untyped parser exception
escape.  The source only guards the blank case; for a non-blank
unparseable string, `parser.isoparse` raises a raw `ValueError` with no
`try/except` around it, which escapes to the caller untyped (first
conjunct).  Blank input is handled as documented (second conjunct), and a
well-formed input converts to UTC (third conjunct).  This contradicts the
function's own docstring ("Raises: InvalidInput: If dt_str is blank or
can't be parsed."). -/
theorem parse_datetime_untyped_escape :
    parse_datetime_to_utc (PyVal.str "garbage") "America/Costa_Rica"
        (fun _ => some (-360)) =
      .error (.untypedError "ValueError: invalid isoformat string")
    ∧ parse_datetime_to_utc (PyVal.str "") "America/Costa_Rica"
        (fun _ => some (-360)) =
      .error (.invalidInput "Date/time is required")
    ∧ parse_datetime_to_utc (PyVal.str "2025-10-03T14:30:00-06:00") "America/Costa_Rica"
        (fun _ => some (-360)) =
      .ok "2025-10-03T20:30:00+00:00" := by
  refine ⟨rfl, rfl, rfl⟩

/-! ### C3 -/

/-- C3 counterexample: the claim says EVERY repository's `update` leaves
the identity field unchanged even when the patch carries it.  Only the
clients repo filters `id` out of the patch; `AirlinesRepo.update` (like
`FlightsRepo.update`) applies the patch wholesale, so updating airline 1
with a patch carrying `id: 999` rewrites the stored identity. -/
theorem airlines_repo_update_overwrites_id :
    (AirlinesRepo.update [[("id", PyVal.int 1), ("company_name", PyVal.str "Air One")]]
        1 [("id", PyVal.int 999)]).map (fun res => recGet? res.2 "id") =
      .ok (some (PyVal.int 999))
    ∧ some (PyVal.int 999) ≠ some (PyVal.int 1) := by
  refine ⟨rfl, by decide⟩

/-! ### C7 -/

/-- C7 counterexample: the claim says `validate_int_id` raises
`InvalidID` for every boolean-typed input.  Python `int(True)` is `1`,
the source has no boolean guard, so `True` validates to the positive
id `1`. -/
theorem validate_int_id_accepts_bool_true :
    validate_int_id (PyVal.bool true) "id" = .ok 1 := rfl

/-! ### C9 -/

/-- C9 counterexample: the claim says a sort key outside the allow-list
falls back to sorting by `id` and the call still succeeds.  All four
list/search entry points validate the normalized key against the
allow-list FIRST and raise `InvalidInput`; the fallback inside
`_safe_sort_key` is unreachable from them. -/
theorem list_clients_unrecognized_sort_fails :
    list_clients [client101] (PyVal.int 50) (PyVal.int 0) (PyVal.str "bogus") =
      .error (.invalidInput "Invalid sort key") := rfl

/-! ### Helper lemmas on dicts and scans -/

theorem recGet?_dictSet_self (r : Rec) (k : String) (v : PyVal) :
    recGet? (dictSet r k v) k = some v := by
  induction r with
  | nil => simp [dictSet, recGet?]
  | cons kv rest ih =>
    obtain ⟨a, b⟩ := kv
    by_cases h : a = k
    · simp [dictSet, recGet?, h]
    · simpa [dictSet, recGet?, h] using ih

theorem recGet?_dictSet_ne (r : Rec) (k k' : String) (v : PyVal) (h : k' ≠ k) :
    recGet? (dictSet r k v) k' = recGet? r k' := by
  have h' : k ≠ k' := Ne.symm h
  induction r with
  | nil => simp [dictSet, recGet?, h']
  | cons kv rest ih =>
    obtain ⟨a, b⟩ := kv
    by_cases hk : a = k
    · subst hk
      simp [dictSet, recGet?, h']
    · simp only [dictSet, if_neg hk, recGet?]
      by_cases hk' : a = k'
      · simp [hk']
      · simpa [hk'] using ih

theorem recGet?_dictMerge_not_mem (r p : Rec) (k : String)
    (h : k ∉ p.map Prod.fst) :
    recGet? (dictMerge r p) k = recGet? r k := by
  induction p generalizing r with
  | nil => simp [dictMerge]
  | cons kv rest ih =>
    have hk : k ≠ kv.1 := by
      intro he; exact h (by simp [he])
    have hrest : k ∉ rest.map Prod.fst := by
      intro hm; exact h (by simp [hm])
    have hstep : dictMerge r (kv :: rest) = dictMerge (dictSet r kv.1 kv.2) rest := rfl
    rw [hstep, ih _ hrest, recGet?_dictSet_ne _ _ _ _ hk]

theorem recGet?_dictMerge_of_patch (r p : Rec) (k : String) (v : PyVal)
    (hnd : (p.map Prod.fst).Nodup) (h : recGet? p k = some v) :
    recGet? (dictMerge r p) k = some v := by
  induction p generalizing r with
  | nil => simp [recGet?] at h
  | cons kv rest ih =>
    rw [List.map_cons, List.nodup_cons] at hnd
    have hstep : dictMerge r (kv :: rest) = dictMerge (dictSet r kv.1 kv.2) rest := rfl
    by_cases hk : kv.1 = k
    · have hval : v = kv.2 := by
        rw [recGet?, if_pos hk] at h
        exact (Option.some.inj h).symm
      have hnotin : k ∉ rest.map Prod.fst := by
        rw [← hk]; exact hnd.1
      rw [hstep, recGet?_dictMerge_not_mem _ _ _ hnotin, ← hk, recGet?_dictSet_self, hval]
    · have h' : recGet? rest k = some v := by
        rw [recGet?, if_neg hk] at h
        exact h
      rw [hstep]
      exact ih _ hnd.2 h'

theorem validate_int_id_ok {v : PyVal} {field : String} {n : Int} :
    validate_int_id v field = .ok n ↔ (pyInt v = some n ∧ 0 < n) := by
  unfold validate_int_id
  cases h : pyInt v with
  | none => simp
  | some iv =>
    show (if iv ≤ 0 then (Except.error (Err.invalidID (field ++ " must be > 0")) : Except Err Int)
        else .ok iv) = .ok n ↔ some iv = some n ∧ 0 < n
    by_cases hle : iv ≤ 0
    · rw [if_pos hle]
      constructor
      · intro hh; cases hh
      · rintro ⟨he, hpos⟩
        cases he
        omega
    · rw [if_neg hle]
      constructor
      · intro hh
        cases hh
        exact ⟨rfl, by omega⟩
      · rintro ⟨he, _⟩
        cases he
        rfl

theorem anyIdEq_false_forall {field : String} {S : List Rec} {c : Int}
    (h : anyIdEq field S c = .ok false) :
    ∀ r ∈ S, ∃ n, pyInt (recGetD r field (PyVal.int (-1))) = some n ∧ n ≠ c := by
  induction S with
  | nil => intro r hr; cases hr
  | cons x xs ih =>
    intro r hr
    rw [anyIdEq] at h
    cases hx : pyInt (recGetD x field (PyVal.int (-1))) with
    | none => rw [hx] at h; simp at h
    | some n =>
      rw [hx] at h
      simp only [] at h
      by_cases hn : n = c
      · rw [if_pos hn] at h; simp at h
      · rw [if_neg hn] at h
        rcases List.mem_cons.mp hr with he | hm
        · exact ⟨n, by rw [he]; exact hx, hn⟩
        · exact ih h r hm

theorem anyIdEq_true {field : String} {S : List Rec} {c : Int}
    (hsome : ∀ r ∈ S, (pyInt (recGetD r field (PyVal.int (-1)))).isSome)
    (hex : ∃ r ∈ S, pyInt (recGetD r field (PyVal.int (-1))) = some c) :
    anyIdEq field S c = .ok true := by
  induction S with
  | nil => rcases hex with ⟨r, hr, _⟩; cases hr
  | cons x xs ih =>
    rw [anyIdEq]
    cases hx : pyInt (recGetD x field (PyVal.int (-1))) with
    | none =>
      have := hsome x (List.mem_cons_self x xs)
      rw [hx] at this; cases this
    | some n =>
      simp only []
      by_cases hn : n = c
      · rw [if_pos hn]
      · rw [if_neg hn]
        apply ih (fun r hr => hsome r (List.mem_cons_of_mem x hr))
        rcases hex with ⟨r, hr, hrc⟩
        rcases List.mem_cons.mp hr with he | hm
        · exfalso; rw [he] at hrc; rw [hrc] at hx
          exact hn (Option.some.inj hx).symm
        · exact ⟨r, hm, hrc⟩

/-! ### Identity invariants -/

/-- The integer identity of a client/airline record as the uniqueness
scan computes it: `int(x.get("id", -1))`, `Option.none` when that call
would raise. -/
def recIdInt (r : Rec) : Option Int :=
  pyInt (recGetD r "id" (PyVal.int (-1)))

/-- Uniqueness invariant for the clients / airlines repositories: every
record's `id` coerces to an integer and those integers are pairwise
distinct. -/
def idsUnique (S : List Rec) : Prop :=
  (∀ r ∈ S, (recIdInt r).isSome) ∧ S.Pairwise (fun a b => recIdInt a ≠ recIdInt b)

/-- The composite identity of a flight record as the uniqueness scan
computes it: coerced `client_id` and `airline_id` plus the RAW stored
`date` value. -/
def flightKey (f : Rec) : Option (Int × Int × PyVal) :=
  match pyInt (recGetD f "client_id" (PyVal.int (-1))),
        pyInt (recGetD f "airline_id" (PyVal.int (-1))) with
  | some c, some a => some (c, a, recGetD f "date" PyVal.none)
  | _, _ => Option.none

/-- Uniqueness invariant for the flights repository. -/
def flightKeysUnique (S : List Rec) : Prop :=
  (∀ f ∈ S, (flightKey f).isSome) ∧ S.Pairwise (fun a b => flightKey a ≠ flightKey b)

theorem flightRowMatches_key_eq {f : Rec} {cid aid : Int} {d : String}
    (hk : flightKey f = some (cid, aid, PyVal.str d)) :
    flightRowMatches f cid aid d = .ok true := by
  unfold flightKey at hk
  cases hc : pyInt (recGetD f "client_id" (PyVal.int (-1))) with
  | none => rw [hc] at hk; simp at hk
  | some c =>
    cases ha : pyInt (recGetD f "airline_id" (PyVal.int (-1))) with
    | none => rw [hc, ha] at hk; simp at hk
    | some a =>
      rw [hc, ha] at hk
      simp only [Option.some.injEq, Prod.mk.injEq] at hk
      obtain ⟨h1, h2, h3⟩ := hk
      simp [flightRowMatches, hc, ha, h1, h2, h3]

theorem flightRowMatches_false_of_key {f : Rec} {cid aid : Int} {d : String}
    (hs : (flightKey f).isSome)
    (hne : flightKey f ≠ some (cid, aid, PyVal.str d)) :
    flightRowMatches f cid aid d = .ok false := by
  unfold flightKey at hs hne
  cases hc : pyInt (recGetD f "client_id" (PyVal.int (-1))) with
  | none => rw [hc] at hs; simp at hs
  | some c =>
    cases ha : pyInt (recGetD f "airline_id" (PyVal.int (-1))) with
    | none => rw [hc, ha] at hs; simp at hs
    | some a =>
      rw [hc, ha] at hne
      by_cases h1 : c = cid
      · by_cases h2 : a = aid
        · have h3 : recGetD f "date" PyVal.none ≠ PyVal.str d := by
            intro hd
            exact hne (by rw [h1, h2, hd])
          simp [flightRowMatches, hc, ha, h1, h2, h3]
        · simp [flightRowMatches, hc, ha, h1, h2]
      · simp [flightRowMatches, hc, h1]

theorem flights_dup_scan_false {S : List Rec} {cid aid : Int} {d : String}
    (h : flights_dup_scan S cid aid d = .ok false) :
    ∀ f ∈ S, flightKey f ≠ some (cid, aid, PyVal.str d) := by
  induction S with
  | nil => intro f hf; cases hf
  | cons f fs ih =>
    intro g hg
    rw [flights_dup_scan] at h
    cases hm : flightRowMatches f cid aid d with
    | error e => rw [hm] at h; simp at h
    | ok b =>
      rw [hm] at h
      cases b with
      | true => simp at h
      | false =>
        simp only [] at h
        rcases List.mem_cons.mp hg with he | hmem
        · subst he
          intro hk
          rw [flightRowMatches_key_eq hk] at hm
          cases hm
        · exact ih h g hmem

theorem flights_dup_scan_true {S : List Rec} {cid aid : Int} {d : String}
    (hsome : ∀ f ∈ S, (flightKey f).isSome)
    (hex : ∃ f ∈ S, flightKey f = some (cid, aid, PyVal.str d)) :
    flights_dup_scan S cid aid d = .ok true := by
  induction S with
  | nil => rcases hex with ⟨f, hf, _⟩; cases hf
  | cons f fs ih =>
    by_cases hf : flightKey f = some (cid, aid, PyVal.str d)
    · rw [flights_dup_scan, flightRowMatches_key_eq hf]
    · have hrow := flightRowMatches_false_of_key
        (hsome f (List.mem_cons_self f fs)) hf
      rw [flights_dup_scan, hrow]
      apply ih (fun g hg => hsome g (List.mem_cons_of_mem f hg))
      rcases hex with ⟨g, hg, hgk⟩
      rcases List.mem_cons.mp hg with he | hmem
      · exact absurd (he ▸ hgk) hf
      · exact ⟨g, hmem, hgk⟩

theorem validate_unique_id_ok {S : List Rec} {c : Int} {field : String} :
    validate_unique_id S c field = .ok () ↔ anyIdEq field S c = .ok false := by
  unfold validate_unique_id
  cases h : anyIdEq field S c with
  | error e => simp
  | ok b => cases b <;> simp

theorem validate_unique_id_dup {S : List Rec} {c : Int} {field : String}
    (h : anyIdEq field S c = .ok true) :
    validate_unique_id S c field =
      .error (.duplicateID (field ++ " already exists: " ++ toString c)) := by
  unfold validate_unique_id
  rw [h]

/-! ### Update-shape lemmas -/

theorem clients_update_filter_invariant (clients : List Rec) (cid : Int)
    (patch : Rec) :
    ClientsRepo.update clients cid patch =
      ClientsRepo.update clients cid (patch.filter (fun kv => kv.1 ≠ "id")) := by
  have hff : (patch.filter (fun kv => kv.1 ≠ "id")).filter (fun kv => kv.1 ≠ "id") =
      patch.filter (fun kv => kv.1 ≠ "id") := by
    rw [List.filter_filter]
    exact List.filter_congr (fun a _ => by simp)
  induction clients with
  | nil => rfl
  | cons r rest ih =>
    cases hc : pyInt (recGetD r "id" (PyVal.int (-1))) with
    | none => simp [ClientsRepo.update, hc]
    | some n =>
      by_cases hn : n = cid
      · simp [ClientsRepo.update, hc, hn, hff]
      · simp [ClientsRepo.update, hc, hn, ih]

theorem clients_update_ok_id {clients : List Rec} {cid : Int} {patch : Rec}
    {out : List Rec × Rec} (h : ClientsRepo.update clients cid patch = .ok out) :
    ∃ orig ∈ clients, recGet? out.2 "id" = recGet? orig "id" := by
  induction clients generalizing out with
  | nil => cases h
  | cons r rest ih =>
    rw [ClientsRepo.update] at h
    cases hc : pyInt (recGetD r "id" (PyVal.int (-1))) with
    | none => rw [hc] at h; cases h
    | some n =>
      rw [hc] at h
      simp only [] at h
      by_cases hn : n = cid
      · rw [if_pos hn] at h
        have hout : out.2 = dictMerge r (patch.filter (fun kv => kv.1 ≠ "id")) := by
          cases h; rfl
        have hnotin : "id" ∉ (patch.filter (fun kv => kv.1 ≠ "id")).map Prod.fst := by
          intro hm
          rcases List.mem_map.mp hm with ⟨kv, hkv, hfst⟩
          have := List.of_mem_filter hkv
          simp at this
          exact this hfst
        refine ⟨r, List.mem_cons_self r rest, ?_⟩
        rw [hout, recGet?_dictMerge_not_mem _ _ _ hnotin]
      · rw [if_neg hn] at h
        cases hrec : ClientsRepo.update rest cid patch with
        | error e => rw [hrec] at h; cases h
        | ok out' =>
          rw [hrec] at h
          simp only [] at h
          cases h
          rcases ih hrec with ⟨orig, horig, hid⟩
          exact ⟨orig, List.mem_cons_of_mem r horig, hid⟩

theorem airlines_update_ok_shape {airlines : List Rec} {aid : Int} {patch : Rec}
    {out : List Rec × Rec} (h : AirlinesRepo.update airlines aid patch = .ok out) :
    ∃ orig ∈ airlines, out.2 = dictMerge orig patch := by
  induction airlines generalizing out with
  | nil => cases h
  | cons r rest ih =>
    rw [AirlinesRepo.update] at h
    cases hc : pyInt (recGetD r "id" (PyVal.int (-1))) with
    | none => rw [hc] at h; cases h
    | some n =>
      rw [hc] at h
      simp only [] at h
      by_cases hn : n = aid
      · rw [if_pos hn] at h
        cases h
        exact ⟨r, List.mem_cons_self r rest, rfl⟩
      · rw [if_neg hn] at h
        cases hrec : AirlinesRepo.update rest aid patch with
        | error e => rw [hrec] at h; cases h
        | ok out' =>
          rw [hrec] at h
          simp only [] at h
          cases h
          rcases ih hrec with ⟨orig, horig, hsh⟩
          exact ⟨orig, List.mem_cons_of_mem r horig, hsh⟩

theorem flights_update_ok_shape {flights : List Rec} {cid aid : Int}
    {date : String} {patch : Rec} {out : List Rec × Rec}
    (h : FlightsRepo.update flights cid aid date patch = .ok out) :
    ∃ orig ∈ flights, out.2 = dictMerge orig patch := by
  induction flights generalizing out with
  | nil => cases h
  | cons f rest ih =>
    rw [FlightsRepo.update] at h
    cases hm : flightRowMatches f cid aid date with
    | error e => rw [hm] at h; cases h
    | ok b =>
      rw [hm] at h
      cases b with
      | true =>
        simp only [] at h
        cases h
        exact ⟨f, List.mem_cons_self f rest, rfl⟩
      | false =>
        simp only [] at h
        cases hrec : FlightsRepo.update rest cid aid date patch with
        | error e => rw [hrec] at h; cases h
        | ok out' =>
          rw [hrec] at h
          simp only [] at h
          cases h
          rcases ih hrec with ⟨orig, horig, hsh⟩
          exact ⟨orig, List.mem_cons_of_mem f horig, hsh⟩

/-- C3 (amended): only the clients repository enforces the structural
identity invariant — `ClientsRepo.update` discards the `id` key of the
patch (so the call is invariant under stripping it, and the updated
record keeps the matched record's `id`); `AirlinesRepo.update` and
`FlightsRepo.update` merge the patch wholesale, so EVERY patch key wins,
the identity fields included.  Non-identity fields merge with the patch
winning in all three repositories.  The claim's "every repository"
universal fails, witnessed by `airlines_repo_update_overwrites_id`. -/
theorem repo_update_identity_behavior :
    (∀ (clients : List Rec) (cid : Int) (patch : Rec),
        ClientsRepo.update clients cid patch =
          ClientsRepo.update clients cid (patch.filter (fun kv => kv.1 ≠ "id")))
    ∧ (∀ (clients : List Rec) (cid : Int) (patch : Rec) (out : List Rec × Rec),
        ClientsRepo.update clients cid patch = .ok out →
        ∃ orig ∈ clients, recGet? out.2 "id" = recGet? orig "id")
    ∧ (∀ (airlines : List Rec) (aid : Int) (patch : Rec) (out : List Rec × Rec),
        (patch.map Prod.fst).Nodup →
        AirlinesRepo.update airlines aid patch = .ok out →
        ∀ (k : String) (v : PyVal), recGet? patch k = some v → recGet? out.2 k = some v)
    ∧ (∀ (flights : List Rec) (cid aid : Int) (date : String) (patch : Rec)
        (out : List Rec × Rec),
        (patch.map Prod.fst).Nodup →
        FlightsRepo.update flights cid aid date patch = .ok out →
        ∀ (k : String) (v : PyVal), recGet? patch k = some v → recGet? out.2 k = some v) := by
  refine ⟨clients_update_filter_invariant, fun _ _ _ _ h => clients_update_ok_id h, ?_, ?_⟩
  · intro airlines aid patch out hnd h k v hk
    rcases airlines_update_ok_shape h with ⟨orig, _, hsh⟩
    rw [hsh]
    exact recGet?_dictMerge_of_patch _ _ _ _ hnd hk
  · intro flights cid aid date patch out hnd h k v hk
    rcases flights_update_ok_shape h with ⟨orig, _, hsh⟩
    rw [hsh]
    exact recGet?_dictMerge_of_patch _ _ _ _ hnd hk

/-- Witness for `repo_update_identity_behavior`: the airlines conjunct
applied to airline 1 with the patch `{"id": 999}`. -/
theorem repo_update_identity_behavior_witness :
    ([("id", PyVal.int 999)].map Prod.fst).Nodup
    ∧ recGet? [("id", PyVal.int 999), ("company_name", PyVal.str "Air One")] "id" =
        some (PyVal.int 999) :=
  ⟨by decide,
    repo_update_identity_behavior.2.2.1
      [[("id", PyVal.int 1), ("company_name", PyVal.str "Air One")]] 1
      [("id", PyVal.int 999)]
      ([[("id", PyVal.int 999), ("company_name", PyVal.str "Air One")]],
        [("id", PyVal.int 999), ("company_name", PyVal.str "Air One")])
      (by decide) rfl "id" (PyVal.int 999) rfl⟩

/-- C7 (amended): `validate_int_id` accepts exactly the values whose
Python `int(...)` coercion succeeds with a strictly positive result.
Because Python treats booleans as integers and the source has no boolean
guard, the boolean `True` is ACCEPTED (coerced to the id `1`) rather than
rejected; `False` is rejected, but only because `int(False) = 0` fails
the positivity check. -/
theorem validate_int_id_spec :
    (∀ (v : PyVal) (field : String) (n : Int),
        validate_int_id v field = .ok n ↔ (pyInt v = some n ∧ 0 < n))
    ∧ validate_int_id (PyVal.bool true) "id" = .ok 1
    ∧ validate_int_id (PyVal.bool false) "id" = .error (.invalidID "id must be > 0") :=
  ⟨fun _ _ _ => validate_int_id_ok, rfl, rfl⟩

/-! ### Create-path elimination lemmas -/

theorem recIdInt_eq_of_validate {p : Rec} {cid : Int}
    (h : validate_int_id (recGetD p "id" PyVal.none) "id" = .ok cid) :
    recIdInt p = some cid := by
  have hp := (validate_int_id_ok.mp h).1
  unfold recIdInt
  cases hg : recGet? p "id" with
  | none =>
    rw [recGetD, hg] at hp
    cases hp
  | some v =>
    rw [recGetD, hg] at hp
    rw [recGetD, hg]
    exact hp

theorem recIdInt_dictSet_other {p : Rec} {k : String} {v : PyVal}
    (hk : k ≠ "id") : recIdInt (dictSet p k v) = recIdInt p := by
  unfold recIdInt recGetD
  rw [recGet?_dictSet_ne _ _ _ _ (Ne.symm hk)]

theorem recIdInt_normalize (p : Rec) :
    recIdInt (normalize_optional_address p) = recIdInt p := by
  unfold normalize_optional_address
  by_cases h2 : normalize_text (recGetD p "address_line2" PyVal.none) = "" <;>
    by_cases h3orig : True
  all_goals
    simp only [h2, if_true, if_false, ite_true, ite_false]
  all_goals
    split <;>
      simp [recIdInt_dictSet_other (by decide : ("address_line3" : String) ≠ "id"),
        recIdInt_dictSet_other (by decide : ("address_line2" : String) ≠ "id")]

theorem create_client_ok_elim {S : List Rec} {p : Rec} {out : List Rec × Rec}
    (h : create_client S p = .ok out) :
    ∃ cid, validate_int_id (recGetD p "id" PyVal.none) "id" = .ok cid
      ∧ anyIdEq "id" S cid = .ok false
      ∧ out = (S ++ [normalize_optional_address p], normalize_optional_address p) := by
  unfold create_client at h
  cases h1 : required_fields p ["id", "type", "name"] with
  | error e => rw [h1] at h; cases h
  | ok u =>
    rw [h1] at h
    simp only [] at h
    cases h2 : validate_int_id (recGetD p "id" PyVal.none) "id" with
    | error e => rw [h2] at h; cases h
    | ok cid =>
      rw [h2] at h
      simp only [] at h
      cases h3 : validate_unique_id S cid "id" with
      | error e => rw [h3] at h; cases h
      | ok u' =>
        rw [h3] at h
        simp only [] at h
        cases h4 : validate_client_formats p with
        | error e => rw [h4] at h; cases h
        | ok u'' =>
          rw [h4] at h
          simp only [ClientsRepo.insert] at h
          refine ⟨cid, rfl, ?_, ?_⟩
          · exact validate_unique_id_ok.mp (by cases u'; exact h3)
          · cases h; rfl

theorem create_airline_ok_elim {S : List Rec} {p : Rec} {out : List Rec × Rec}
    (h : create_airline S p = .ok out) :
    ∃ cid canon, validate_int_id (recGetD p "id" PyVal.none) "id" = .ok cid
      ∧ anyIdEq "id" S cid = .ok false
      ∧ out = (S ++ [dictSet p "type" (PyVal.str canon)],
          dictSet p "type" (PyVal.str canon)) := by
  unfold create_airline at h
  cases h1 : required_fields p ["id", "type", "company_name"] with
  | error e => rw [h1] at h; cases h
  | ok u =>
    rw [h1] at h
    simp only [] at h
    cases h2 : validate_int_id (recGetD p "id" PyVal.none) "id" with
    | error e => rw [h2] at h; cases h
    | ok cid =>
      rw [h2] at h
      simp only [] at h
      cases h3 : validate_unique_id S cid "id" with
      | error e => rw [h3] at h; cases h
      | ok u' =>
        rw [h3] at h
        simp only [] at h
        cases h4 : canonical_airline_type (recGetD p "type" PyVal.none) with
        | error e => rw [h4] at h; cases h
        | ok canon =>
          rw [h4] at h
          simp only [AirlinesRepo.insert] at h
          refine ⟨cid, canon, rfl, ?_, ?_⟩
          · exact validate_unique_id_ok.mp (by cases u'; exact h3)
          · cases h; rfl

theorem create_flight_ok_elim {C A F : List Rec} {p : Rec} {out : List Rec × Rec}
    (h : create_flight C A F p = .ok out) :
    ∃ cid aid,
      require_int_id (recGetD p "client_id" PyVal.none) "client_id" = .ok cid
      ∧ require_int_id (recGetD p "airline_id" PyVal.none) "airline_id" = .ok aid
      ∧ flights_dup_scan F cid aid (pyStr (recGetD p "date" PyVal.none)) = .ok false
      ∧ out = (F ++ [new_flight_record cid aid (pyStr (recGetD p "date" PyVal.none)) p],
          new_flight_record cid aid (pyStr (recGetD p "date" PyVal.none)) p) := by
  unfold create_flight at h
  cases h1 : require_fields p FLIGHT_REQUIRED_FIELDS with
  | error e => rw [h1] at h; cases h
  | ok u =>
    rw [h1] at h
    simp only [] at h
    cases h2 : require_int_id (recGetD p "client_id" PyVal.none) "client_id" with
    | error e => rw [h2] at h; cases h
    | ok cid =>
      rw [h2] at h
      simp only [] at h
      cases h3 : require_int_id (recGetD p "airline_id" PyVal.none) "airline_id" with
      | error e => rw [h3] at h; cases h
      | ok aid =>
        rw [h3] at h
        simp only [] at h
        cases h4 : parse_iso_datetime (pyStr (recGetD p "date" PyVal.none)) with
        | error e => rw [h4] at h; cases h
        | ok dt =>
          rw [h4] at h
          simp only [] at h
          by_cases h5 : exists_client C cid
          · rw [if_neg (by simpa using h5)] at h
            by_cases h6 : exists_airline A aid
            · rw [if_neg (by simpa using h6)] at h
              cases h7 : flights_dup_scan F cid aid (pyStr (recGetD p "date" PyVal.none)) with
              | error e => rw [h7] at h; cases h
              | ok b =>
                rw [h7] at h
                cases b with
                | true => simp only [] at h; cases h
                | false =>
                  simp only [FlightsRepo.insert] at h
                  refine ⟨cid, aid, rfl, rfl, h7, ?_⟩
                  cases h; rfl
            · rw [if_pos (by simpa using h6)] at h
              cases h
          · rw [if_pos (by simpa using h5)] at h
            cases h

theorem create_client_dup {S : List Rec} {p : Rec} {cid : Int}
    (hreq : required_fields p ["id", "type", "name"] = .ok ())
    (hid : validate_int_id (recGetD p "id" PyVal.none) "id" = .ok cid)
    (hdup : anyIdEq "id" S cid = .ok true) :
    create_client S p =
      .error (.duplicateID ("id already exists: " ++ toString cid)) := by
  unfold create_client
  rw [hreq]
  simp only []
  rw [hid]
  simp only []
  rw [validate_unique_id_dup hdup]
  rfl

theorem create_airline_dup {S : List Rec} {p : Rec} {cid : Int}
    (hreq : required_fields p ["id", "type", "company_name"] = .ok ())
    (hid : validate_int_id (recGetD p "id" PyVal.none) "id" = .ok cid)
    (hdup : anyIdEq "id" S cid = .ok true) :
    create_airline S p =
      .error (.duplicateID ("id already exists: " ++ toString cid)) := by
  unfold create_airline
  rw [hreq]
  simp only []
  rw [hid]
  simp only []
  rw [validate_unique_id_dup hdup]
  rfl

theorem create_flight_dup {C A F : List Rec} {p : Rec} {cid aid : Int} {dt : DT}
    (hreq : require_fields p FLIGHT_REQUIRED_FIELDS = .ok ())
    (hcid : require_int_id (recGetD p "client_id" PyVal.none) "client_id" = .ok cid)
    (haid : require_int_id (recGetD p "airline_id" PyVal.none) "airline_id" = .ok aid)
    (hdate : parse_iso_datetime (pyStr (recGetD p "date" PyVal.none)) = .ok dt)
    (hc : exists_client C cid = true)
    (ha : exists_airline A aid = true)
    (hdup : flights_dup_scan F cid aid (pyStr (recGetD p "date" PyVal.none)) = .ok true) :
    create_flight C A F p =
      .error (.invalidInput "Flight already exists for this client/airline/date") := by
  unfold create_flight
  rw [hreq]
  simp only []
  rw [hcid]
  simp only []
  rw [haid]
  simp only []
  rw [hdate]
  simp only []
  rw [if_neg (by simp [hc]), if_neg (by simp [ha]), hdup]

theorem flightKey_new_record (cid aid : Int) (d : String) (p : Rec) :
    flightKey (new_flight_record cid aid d p) = some (cid, aid, PyVal.str d) := rfl

/-- C5: uniqueness of identities.  For each of the three services, a
successful create appends exactly one record and preserves the invariant
that all stored identities (integer `id` for clients/airlines, the
`(client_id, airline_id, raw date string)` triple for flights) are
pairwise distinct; and a create whose identity is already stored — with
the validations that precede the uniqueness check passing — fails with
`DuplicateID` (clients/airlines) or `InvalidInput` (flights).  In this
embedding every service returns the new repository state only on success,
and the Python sources mutate the repository only in the final
`repo.insert`, after all checks, so an error result leaves the stored
collection unchanged by construction. -/
theorem create_preserves_unique_identity :
    (∀ (S : List Rec) (p : Rec) (S' : List Rec) (r : Rec),
        idsUnique S → create_client S p = .ok (S', r) →
        S' = S ++ [r] ∧ idsUnique S')
    ∧ (∀ (S : List Rec) (p : Rec) (S' : List Rec) (r : Rec),
        idsUnique S → create_airline S p = .ok (S', r) →
        S' = S ++ [r] ∧ idsUnique S')
    ∧ (∀ (C A S : List Rec) (p : Rec) (S' : List Rec) (r : Rec),
        flightKeysUnique S → create_flight C A S p = .ok (S', r) →
        S' = S ++ [r] ∧ flightKeysUnique S')
    ∧ (∀ (S : List Rec) (p : Rec) (cid : Int),
        required_fields p ["id", "type", "name"] = .ok () →
        validate_int_id (recGetD p "id" PyVal.none) "id" = .ok cid →
        (∀ x ∈ S, (recIdInt x).isSome) → (∃ x ∈ S, recIdInt x = some cid) →
        create_client S p =
          .error (.duplicateID ("id already exists: " ++ toString cid)))
    ∧ (∀ (S : List Rec) (p : Rec) (cid : Int),
        required_fields p ["id", "type", "company_name"] = .ok () →
        validate_int_id (recGetD p "id" PyVal.none) "id" = .ok cid →
        (∀ x ∈ S, (recIdInt x).isSome) → (∃ x ∈ S, recIdInt x = some cid) →
        create_airline S p =
          .error (.duplicateID ("id already exists: " ++ toString cid)))
    ∧ (∀ (C A F : List Rec) (p : Rec) (cid aid : Int) (dt : DT),
        require_fields p FLIGHT_REQUIRED_FIELDS = .ok () →
        require_int_id (recGetD p "client_id" PyVal.none) "client_id" = .ok cid →
        require_int_id (recGetD p "airline_id" PyVal.none) "airline_id" = .ok aid →
        parse_iso_datetime (pyStr (recGetD p "date" PyVal.none)) = .ok dt →
        exists_client C cid = true → exists_airline A aid = true →
        (∀ f ∈ F, (flightKey f).isSome) →
        (∃ f ∈ F, flightKey f = some (cid, aid, PyVal.str (pyStr (recGetD p "date" PyVal.none)))) →
        create_flight C A F p =
          .error (.invalidInput "Flight already exists for this client/airline/date")) := by
  refine ⟨?_, ?_, ?_, ?_, ?_, ?_⟩
  · -- clients: successful create preserves the invariant
    intro S p S' r hinv h
    obtain ⟨cid, hid, hscan, hout⟩ := create_client_ok_elim h
    rw [Prod.ext_iff] at hout
    obtain ⟨hS', hr⟩ := hout
    simp only [] at hS' hr
    subst hr
    subst hS'
    refine ⟨rfl, ?_, ?_⟩
    · intro x hx
      rcases List.mem_append.mp hx with hxs | hxn
      · rcases anyIdEq_false_forall hscan x hxs with ⟨n, hn, _⟩
        simp [recIdInt, hn]
      · rcases List.mem_singleton.mp hxn with rfl
        rw [recIdInt_normalize, recIdInt_eq_of_validate hid]
        rfl
    · rw [List.pairwise_append]
      refine ⟨hinv.2, List.pairwise_singleton _ _, ?_⟩
      intro a ha b hb
      rcases List.mem_singleton.mp hb with rfl
      rw [recIdInt_normalize, recIdInt_eq_of_validate hid]
      rcases anyIdEq_false_forall hscan a ha with ⟨n, hn, hne⟩
      rw [show recIdInt a = some n from hn]
      intro he
      exact hne (Option.some.inj he)
  · -- airlines: successful create preserves the invariant
    intro S p S' r hinv h
    obtain ⟨cid, canon, hid, hscan, hout⟩ := create_airline_ok_elim h
    rw [Prod.ext_iff] at hout
    obtain ⟨hS', hr⟩ := hout
    simp only [] at hS' hr
    subst hr
    subst hS'
    refine ⟨rfl, ?_, ?_⟩
    · intro x hx
      rcases List.mem_append.mp hx with hxs | hxn
      · rcases anyIdEq_false_forall hscan x hxs with ⟨n, hn, _⟩
        simp [recIdInt, hn]
      · rcases List.mem_singleton.mp hxn with rfl
        rw [recIdInt_dictSet_other (by decide), recIdInt_eq_of_validate hid]
        rfl
    · rw [List.pairwise_append]
      refine ⟨hinv.2, List.pairwise_singleton _ _, ?_⟩
      intro a ha b hb
      rcases List.mem_singleton.mp hb with rfl
      rw [recIdInt_dictSet_other (by decide), recIdInt_eq_of_validate hid]
      rcases anyIdEq_false_forall hscan a ha with ⟨n, hn, hne⟩
      rw [show recIdInt a = some n from hn]
      intro he
      exact hne (Option.some.inj he)
  · -- flights: successful create preserves the invariant
    intro C A S p S' r hinv h
    obtain ⟨cid, aid, hcid, haid, hscan, hout⟩ := create_flight_ok_elim h
    rw [Prod.ext_iff] at hout
    obtain ⟨hS', hr⟩ := hout
    simp only [] at hS' hr
    subst hr
    subst hS'
    refine ⟨rfl, ?_, ?_⟩
    · intro x hx
      rcases List.mem_append.mp hx with hxs | hxn
      · exact hinv.1 x hxs
      · rcases List.mem_singleton.mp hxn with rfl
        rw [flightKey_new_record]
        rfl
    · rw [List.pairwise_append]
      refine ⟨hinv.2, List.pairwise_singleton _ _, ?_⟩
      intro a ha b hb
      rcases List.mem_singleton.mp hb with rfl
      rw [flightKey_new_record]
      exact flights_dup_scan_false hscan a ha
  · -- clients: duplicate id fails with DuplicateID
    intro S p cid hreq hid hsome hex
    refine create_client_dup hreq hid (anyIdEq_true ?_ ?_)
    · intro x hx
      simpa [recIdInt] using hsome x hx
    · rcases hex with ⟨x, hx, hxc⟩
      exact ⟨x, hx, by simpa [recIdInt] using hxc⟩
  · -- airlines: duplicate id fails with DuplicateID
    intro S p cid hreq hid hsome hex
    refine create_airline_dup hreq hid (anyIdEq_true ?_ ?_)
    · intro x hx
      simpa [recIdInt] using hsome x hx
    · rcases hex with ⟨x, hx, hxc⟩
      exact ⟨x, hx, by simpa [recIdInt] using hxc⟩
  · -- flights: duplicate triple fails with InvalidInput
    intro C A F p cid aid dt hreq hcid haid hdate hc ha hsome hex
    exact create_flight_dup hreq hcid haid hdate hc ha
      (flights_dup_scan_true hsome hex)

/-- The client payload with the canonical `type` spelling. -/
def clientCanonPayload : Rec :=
  dictSet clientPayloadBusiness "type" (PyVal.str "Business")

/-- The record `create_client` stores for `clientCanonPayload`. -/
def clientStored : Rec := normalize_optional_address clientCanonPayload

/-- A valid airline payload with canonical `type` spelling. -/
def airlineCanonPayload : Rec :=
  [("id", PyVal.int 2), ("type", PyVal.str "National"), ("company_name", PyVal.str "Air One")]

/-- The record `create_airline` stores for `airlineCanonPayload`. -/
def airlineStored : Rec := dictSet airlineCanonPayload "type" (PyVal.str "National")

/-- Witness for `create_preserves_unique_identity`: each conjunct applied
at concrete states — fresh creates of client 1, airline 2 and flight
`(5, 800, "2999-01-01")` preserve the invariant, and repeating each
create against the resulting state fails with the claimed error. -/
theorem create_preserves_unique_identity_witness :
    idsUnique ([] : List Rec)
    ∧ ([clientStored] = [] ++ [clientStored] ∧ idsUnique [clientStored])
    ∧ ([airlineStored] = [] ++ [airlineStored] ∧ idsUnique [airlineStored])
    ∧ ([flightRecClient5] = [] ++ [flightRecClient5] ∧ flightKeysUnique [flightRecClient5])
    ∧ create_client [clientStored] clientCanonPayload =
        .error (.duplicateID ("id already exists: " ++ toString (1 : Int)))
    ∧ create_airline [airlineStored] airlineCanonPayload =
        .error (.duplicateID ("id already exists: " ++ toString (2 : Int)))
    ∧ create_flight [] [airline800] [flightRecClient5] flightPayloadClient5 =
        .error (.invalidInput "Flight already exists for this client/airline/date") := by
  have hnilC : idsUnique ([] : List Rec) :=
    ⟨fun r hr => absurd hr (List.not_mem_nil r), List.Pairwise.nil⟩
  have hnilF : flightKeysUnique ([] : List Rec) :=
    ⟨fun f hf => absurd hf (List.not_mem_nil f), List.Pairwise.nil⟩
  refine ⟨hnilC, ?_, ?_, ?_, ?_, ?_, ?_⟩
  · exact create_preserves_unique_identity.1 [] clientCanonPayload
      [clientStored] clientStored hnilC rfl
  · exact create_preserves_unique_identity.2.1 [] airlineCanonPayload
      [airlineStored] airlineStored hnilC rfl
  · exact create_preserves_unique_identity.2.2.1 [] [airline800] []
      flightPayloadClient5 [flightRecClient5] flightRecClient5 hnilF rfl
  · exact create_preserves_unique_identity.2.2.2.1 [clientStored]
      clientCanonPayload 1 rfl rfl (by decide) (by decide)
  · exact create_preserves_unique_identity.2.2.2.2.1 [airlineStored]
      airlineCanonPayload 2 rfl rfl (by decide) (by decide)
  · exact create_preserves_unique_identity.2.2.2.2.2 [] [airline800]
      [flightRecClient5] flightPayloadClient5 5 800
      ⟨2999, 1, 1, 0, 0, 0, Option.none⟩ rfl rfl rfl rfl rfl rfl
      (by decide) (by decide)

/-! ### Sort-order lemmas -/

theorem charListLe_total : ∀ (a b : List Char),
    charListLe a b = true ∨ charListLe b a = true := by
  intro a
  induction a with
  | nil => intro b; left; rfl
  | cons x xs ih =>
    intro b
    cases b with
    | nil => right; rfl
    | cons y ys =>
      by_cases hxy : x.toNat < y.toNat
      · left; simp [charListLe, hxy]
      · by_cases hyx : y.toNat < x.toNat
        · right; simp [charListLe, hyx]
        · rcases ih ys with h | h
          · left; simp [charListLe, hxy, hyx, h]
          · right; simp [charListLe, hxy, hyx, h]

theorem charListLe_trans : ∀ {a b c : List Char},
    charListLe a b = true → charListLe b c = true → charListLe a c = true := by
  intro a
  induction a with
  | nil => intro b c _ _; rfl
  | cons x xs ih =>
    intro b c hab hbc
    cases b with
    | nil => simp [charListLe] at hab
    | cons y ys =>
      cases c with
      | nil => simp [charListLe] at hbc
      | cons z zs =>
        rw [charListLe] at hab hbc ⊢
        by_cases hxy : x.toNat < y.toNat
        · by_cases hyz : y.toNat < z.toNat
          · have hxz : x.toNat < z.toNat := Nat.lt_trans hxy hyz
            simp [hxz]
          · by_cases hzy : z.toNat < y.toNat
            · simp [hyz, hzy] at hbc
            · have hyzeq : y.toNat = z.toNat := by omega
              have hxz : x.toNat < z.toNat := by omega
              simp [hxz]
        · by_cases hyx : y.toNat < x.toNat
          · simp [hxy, hyx] at hab
          · have hxyeq : x.toNat = y.toNat := by omega
            by_cases hyz : y.toNat < z.toNat
            · have hxz : x.toNat < z.toNat := by omega
              simp [hxz]
            · by_cases hzy : z.toNat < y.toNat
              · simp [hyz, hzy] at hbc
              · have hxz : ¬ x.toNat < z.toNat := by omega
                have hzx : ¬ z.toNat < x.toNat := by omega
                simp [hxy, hyx] at hab
                simp [hyz, hzy] at hbc
                simp [hxz, hzx]
                exact ih hab hbc

theorem sortValLe_total (u v : Sum Int String) :
    sortValLe u v = true ∨ sortValLe v u = true := by
  cases u with
  | inl a =>
    cases v with
    | inl b =>
      rcases Int.le_total a b with h | h
      · left; simpa [sortValLe] using h
      · right; simpa [sortValLe] using h
    | inr b => left; rfl
  | inr a =>
    cases v with
    | inl b => right; rfl
    | inr b =>
      rcases charListLe_total a.toList b.toList with h | h
      · left; simpa [sortValLe, strLeB] using h
      · right; simpa [sortValLe, strLeB] using h

theorem sortValLe_trans {u v w : Sum Int String}
    (h1 : sortValLe u v = true) (h2 : sortValLe v w = true) :
    sortValLe u w = true := by
  cases u with
  | inl a =>
    cases w with
    | inl c =>
      cases v with
      | inl b =>
        simp only [sortValLe, decide_eq_true_eq] at h1 h2 ⊢
        omega
      | inr b => simp [sortValLe] at h2
    | inr c => rfl
  | inr a =>
    cases v with
    | inl b => simp [sortValLe] at h1
    | inr b =>
      cases w with
      | inl c => simp [sortValLe] at h2
      | inr c =>
        simp only [sortValLe, strLeB] at h1 h2 ⊢
        exact charListLe_trans h1 h2

theorem sort_records_pairwise (allowed : List String) (key : String)
    (items : List Rec) :
    (sort_records allowed key items).Pairwise
      (fun a b => sort_le allowed key a b = true) := by
  haveI htot : IsTotal Rec (fun a b => sort_le allowed key a b = true) :=
    ⟨fun a b => sortValLe_total _ _⟩
  haveI htrans : IsTrans Rec (fun a b => sort_le allowed key a b = true) :=
    ⟨fun _ _ _ h1 h2 => sortValLe_trans h1 h2⟩
  exact List.sorted_insertionSort _ items

theorem sort_records_perm (allowed : List String) (key : String)
    (items : List Rec) : (sort_records allowed key items).Perm items :=
  List.perm_insertionSort _ items

theorem safe_sort_val_id (allowed : List String) (r : Rec) :
    safe_sort_val allowed "id" r = Sum.inl (idSortInt r "id") := by
  by_cases h : ("id" : String) ∈ allowed <;> simp [safe_sort_val, h]

theorem safe_sort_val_str (allowed : List String) {key : String}
    (hk : key ∈ allowed) (hne : key ≠ "id") (r : Rec) :
    safe_sort_val allowed key r = Sum.inr (strSortVal r key) := by
  simp [safe_sort_val, hk, hne]

/-- C9 (amended): a sort key whose normalized form is outside the
allow-list makes clients/airlines list AND search fail with
`InvalidInput` — the `_safe_sort_key` fallback to `id` exists but is
unreachable from the four entry points, so the call does NOT succeed as
the claim states (counterexample `list_clients_unrecognized_sort_fails`).
For an allow-listed key the produced ordering is as claimed: the `id` key
orders records by the integer sort value (`int(val)` with fallback `0`),
every other key by the lowercased string value. -/
theorem sort_key_behavior :
    (∀ (S : List Rec) (limit offset srt : PyVal) (l o : Int),
        pyInt limit = some l → pyInt offset = some o →
        norm_sort_key srt ∉ ALLOWED_SORTS_CLIENTS →
        list_clients S limit offset srt = .error (.invalidInput "Invalid sort key"))
    ∧ (∀ (S : List Rec) (q : String) (ty ci st co limit offset srt : PyVal) (l o : Int),
        pyInt limit = some l → pyInt offset = some o →
        norm_sort_key srt ∉ ALLOWED_SORTS_CLIENTS →
        search_clients S q ty ci st co limit offset srt =
          .error (.invalidInput "Invalid sort key"))
    ∧ (∀ (S : List Rec) (limit offset srt : PyVal) (l o : Int),
        pyInt limit = some l → pyInt offset = some o →
        norm_sort_key srt ∉ ALLOWED_SORTS_AIRLINES →
        list_airlines S limit offset srt = .error (.invalidInput "Invalid sort key"))
    ∧ (∀ (S : List Rec) (q : String) (ty srt : PyVal),
        norm_sort_key srt ∉ ALLOWED_SORTS_AIRLINES →
        search_airlines S q ty srt = .error (.invalidInput "Invalid sort key"))
    ∧ (∀ (allowed : List String) (S : List Rec),
        (sort_records allowed "id" S).Pairwise
          (fun a b => idSortInt a "id" ≤ idSortInt b "id"))
    ∧ (∀ (allowed : List String) (key : String) (S : List Rec),
        key ∈ allowed → key ≠ "id" →
        (sort_records allowed key S).Pairwise
          (fun a b => strLeB (strSortVal a key) (strSortVal b key) = true)) := by
  refine ⟨?_, ?_, ?_, ?_, ?_, ?_⟩
  · intro S limit offset srt l o hl ho hsk
    unfold list_clients
    rw [hl, ho]
    simp only []
    rw [if_neg hsk]
  · intro S q ty ci st co limit offset srt l o hl ho hsk
    unfold search_clients
    rw [hl, ho]
    simp only []
    rw [if_neg hsk]
  · intro S limit offset srt l o hl ho hsk
    unfold list_airlines
    rw [hl, ho]
    simp only []
    rw [if_neg hsk]
  · intro S q ty srt hsk
    unfold search_airlines
    rw [if_neg hsk]
  · intro allowed S
    have hp := sort_records_pairwise allowed "id" S
    refine hp.imp ?_
    intro a b hab
    have : sortValLe (Sum.inl (idSortInt a "id")) (Sum.inl (idSortInt b "id")) = true := by
      rw [← safe_sort_val_id allowed a, ← safe_sort_val_id allowed b]
      exact hab
    simpa [sortValLe, decide_eq_true_eq] using this
  · intro allowed key S hk hne
    have hp := sort_records_pairwise allowed key S
    refine hp.imp ?_
    intro a b hab
    rw [sort_le, safe_sort_val_str allowed hk hne, safe_sort_val_str allowed hk hne] at hab
    simpa [sortValLe] using hab

/-- Witness for `sort_key_behavior`: the error conjuncts applied at the
sort key `"bogus"` and the ordering conjuncts at singleton states. -/
theorem sort_key_behavior_witness :
    pyInt (PyVal.int 50) = some 50
    ∧ norm_sort_key (PyVal.str "bogus") ∉ ALLOWED_SORTS_CLIENTS
    ∧ search_clients [client101] "" PyVal.none PyVal.none PyVal.none PyVal.none
        (PyVal.int 50) (PyVal.int 0) (PyVal.str "bogus") =
        .error (.invalidInput "Invalid sort key")
    ∧ list_airlines [airline301] (PyVal.int 50) (PyVal.int 0) (PyVal.str "bogus") =
        .error (.invalidInput "Invalid sort key")
    ∧ search_airlines [airline301] "" PyVal.none (PyVal.str "bogus") =
        .error (.invalidInput "Invalid sort key")
    ∧ (sort_records ALLOWED_SORTS_CLIENTS "id" [client101, clientStored]).Pairwise
        (fun a b => idSortInt a "id" ≤ idSortInt b "id")
    ∧ (sort_records ALLOWED_SORTS_CLIENTS "name" [client101, clientStored]).Pairwise
        (fun a b => strLeB (strSortVal a "name") (strSortVal b "name") = true) := by
  refine ⟨rfl, by decide, ?_, ?_, ?_, ?_, ?_⟩
  · exact sort_key_behavior.2.1 [client101] "" PyVal.none PyVal.none PyVal.none
      PyVal.none (PyVal.int 50) (PyVal.int 0) (PyVal.str "bogus") 50 0 rfl rfl (by decide)
  · exact sort_key_behavior.2.2.1 [airline301] (PyVal.int 50) (PyVal.int 0)
      (PyVal.str "bogus") 50 0 rfl rfl (by decide)
  · exact sort_key_behavior.2.2.2.1 [airline301] "" PyVal.none (PyVal.str "bogus")
      (by decide)
  · exact sort_key_behavior.2.2.2.2.1 ALLOWED_SORTS_CLIENTS [client101, clientStored]
  · exact sort_key_behavior.2.2.2.2.2 ALLOWED_SORTS_CLIENTS "name"
      [client101, clientStored] (by decide) (by decide)

/-- C10: in `list_clients` and `search_clients`, a non-positive `limit`
(zero, or negative — clamped to zero) makes the returned window the WHOLE
sorted (and, for search, filtered) sequence from the clamped offset on,
bypassing the default page size 50 and the 200-record cap, while the
reported `count` stays the full matching-set size; a positive `limit` is
capped at 200 and windows the same sequence.  -/
theorem limit_zero_returns_all :
    (∀ (S : List Rec) (lim off : Int) (srt : PyVal),
        norm_sort_key srt ∈ ALLOWED_SORTS_CLIENTS →
        (lim ≤ 0 →
          list_clients S (PyVal.int lim) (PyVal.int off) srt =
            .ok ⟨(sort_records ALLOWED_SORTS_CLIENTS (norm_sort_key srt) S).drop
                  (max 0 off).toNat,
                S.length, 0, max 0 off, norm_sort_key srt⟩)
        ∧ (0 < lim →
          list_clients S (PyVal.int lim) (PyVal.int off) srt =
            .ok ⟨((sort_records ALLOWED_SORTS_CLIENTS (norm_sort_key srt) S).drop
                  (max 0 off).toNat).take (min lim 200).toNat,
                S.length, min lim 200, max 0 off, norm_sort_key srt⟩))
    ∧ (∀ (S : List Rec) (q : String) (ty ci st co : PyVal) (lim off : Int)
        (srt : PyVal),
        norm_sort_key srt ∈ ALLOWED_SORTS_CLIENTS →
        (lim ≤ 0 →
          search_clients S q ty ci st co (PyVal.int lim) (PyVal.int off) srt =
            .ok ⟨(sort_records ALLOWED_SORTS_CLIENTS (norm_sort_key srt)
                    (apply_exact_filters (filter_by_q S SEARCH_FIELDS_CLIENTS q)
                      [("type", ty), ("city", ci), ("state", st), ("country", co)])).drop
                  (max 0 off).toNat,
                (apply_exact_filters (filter_by_q S SEARCH_FIELDS_CLIENTS q)
                  [("type", ty), ("city", ci), ("state", st), ("country", co)]).length,
                0, max 0 off, norm_sort_key srt⟩)
        ∧ (0 < lim →
          search_clients S q ty ci st co (PyVal.int lim) (PyVal.int off) srt =
            .ok ⟨((sort_records ALLOWED_SORTS_CLIENTS (norm_sort_key srt)
                    (apply_exact_filters (filter_by_q S SEARCH_FIELDS_CLIENTS q)
                      [("type", ty), ("city", ci), ("state", st), ("country", co)])).drop
                  (max 0 off).toNat).take (min lim 200).toNat,
                (apply_exact_filters (filter_by_q S SEARCH_FIELDS_CLIENTS q)
                  [("type", ty), ("city", ci), ("state", st), ("country", co)]).length,
                min lim 200, max 0 off, norm_sort_key srt⟩)) := by
  constructor
  · intro S lim off srt hsk
    constructor
    · intro hlim
      have hclamp : clamp_limit lim = 0 := by unfold clamp_limit; omega
      unfold list_clients
      simp only [pyInt]
      rw [if_pos hsk]
      rw [hclamp]
      simp [page_window, clamp_offset,
        (sort_records_perm ALLOWED_SORTS_CLIENTS (norm_sort_key srt) S).length_eq]
    · intro hlim
      have hclamp : clamp_limit lim = min lim 200 := by unfold clamp_limit; omega
      have hpos : 0 < min lim 200 := by omega
      unfold list_clients
      simp only [pyInt]
      rw [if_pos hsk]
      rw [hclamp]
      simp [page_window, clamp_offset, hpos,
        (sort_records_perm ALLOWED_SORTS_CLIENTS (norm_sort_key srt) S).length_eq]
  · intro S q ty ci st co lim off srt hsk
    constructor
    · intro hlim
      have hclamp : clamp_limit lim = 0 := by unfold clamp_limit; omega
      unfold search_clients
      simp only [pyInt]
      rw [if_pos hsk]
      rw [hclamp]
      simp [page_window, clamp_offset,
        (sort_records_perm ALLOWED_SORTS_CLIENTS (norm_sort_key srt) _).length_eq]
    · intro hlim
      have hclamp : clamp_limit lim = min lim 200 := by unfold clamp_limit; omega
      have hpos : 0 < min lim 200 := by omega
      unfold search_clients
      simp only [pyInt]
      rw [if_pos hsk]
      rw [hclamp]
      simp [page_window, clamp_offset, hpos,
        (sort_records_perm ALLOWED_SORTS_CLIENTS (norm_sort_key srt) _).length_eq]

/-- Three clients for the pagination witness, deliberately out of id
order. -/
def cw1 : Rec := [("id", PyVal.int 1), ("name", PyVal.str "Zeta")]

def cw2 : Rec := [("id", PyVal.int 2), ("name", PyVal.str "Beta")]

def cw3 : Rec := [("id", PyVal.int 3), ("name", PyVal.str "Alpha")]

/-- Witness for `limit_zero_returns_all`: with three stored clients, a
negative limit returns all three sorted records in one response, a limit
of 300 is capped to 200, and a zero limit in search returns everything
from offset 1 on. -/
theorem limit_zero_returns_all_witness :
    norm_sort_key (PyVal.str "id") ∈ ALLOWED_SORTS_CLIENTS
    ∧ ((-5 : Int) ≤ 0)
    ∧ list_clients [cw2, cw1, cw3] (PyVal.int (-5)) (PyVal.int 0) (PyVal.str "id") =
        .ok ⟨[cw1, cw2, cw3], 3, 0, 0, "id"⟩
    ∧ list_clients [cw2, cw1, cw3] (PyVal.int 300) (PyVal.int 0) (PyVal.str "id") =
        .ok ⟨[cw1, cw2, cw3], 3, 200, 0, "id"⟩
    ∧ search_clients [cw2, cw1, cw3] "" PyVal.none PyVal.none PyVal.none PyVal.none
        (PyVal.int 0) (PyVal.int 1) (PyVal.str "id") =
        .ok ⟨[cw2, cw3], 3, 0, 1, "id"⟩ := by
  refine ⟨by decide, by decide, ?_, ?_, ?_⟩
  · have h := (limit_zero_returns_all.1 [cw2, cw1, cw3] (-5) 0
      (PyVal.str "id") (by decide)).1 (by decide)
    rw [h]
    exact congrArg Except.ok (by decide)
  · have h := (limit_zero_returns_all.1 [cw2, cw1, cw3] 300 0
      (PyVal.str "id") (by decide)).2 (by decide)
    rw [h]
    exact congrArg Except.ok (by decide)
  · have h := (limit_zero_returns_all.2 [cw2, cw1, cw3] "" PyVal.none PyVal.none
      PyVal.none PyVal.none 0 1 (PyVal.str "id") (by decide)).1 (by decide)
    rw [h]
    exact congrArg Except.ok (by decide)
